import Mathlib

/-!
Verification development for the spin CLI gate-client authentication layer.

The definitions below are a shallow embedding of the Go sources:
* `gateclient` (GatewayClient): `generateCodeVerifier`, `initializeClient`,
  `authenticateOAuth2`, `authenticateGoogleServiceAccount`, `authenticateLdap`,
  `login`, `writeYAMLConfig`, `writeYAML`;
* the legacy `gateclient` (ApiMeta): the fresh OAuth2 branch of `Authenticate`.

External effects (randomness, terminal input, HTTP exchanges, the filesystem)
are supplied by an explicit environment record `Env`; observable effects are
recorded as a list of `Action`s.
-/

namespace Spin

/-! ### 32-bit helpers and SHA-256 (FIPS 180-4), over `Nat` with explicit masking -/

def w32 (n : Nat) : Nat := n % 4294967296

def rotr (n x : Nat) : Nat := w32 ((x >>> n) ||| (x <<< (32 - n)))

def bigSigma0 (x : Nat) : Nat := w32 ((rotr 2 x) ^^^ (rotr 13 x) ^^^ (rotr 22 x))

def bigSigma1 (x : Nat) : Nat := w32 ((rotr 6 x) ^^^ (rotr 11 x) ^^^ (rotr 25 x))

def smallSigma0 (x : Nat) : Nat := w32 ((rotr 7 x) ^^^ (rotr 18 x) ^^^ (x >>> 3))

def smallSigma1 (x : Nat) : Nat := w32 ((rotr 17 x) ^^^ (rotr 19 x) ^^^ (x >>> 10))

def chFn (x y z : Nat) : Nat := w32 ((x &&& y) ^^^ ((x ^^^ 4294967295) &&& z))

def majFn (x y z : Nat) : Nat := w32 ((x &&& y) ^^^ (x &&& z) ^^^ (y &&& z))

def sha256K : List Nat :=
  [1116352408, 1899447441, 3049323471, 3921009573, 961987163,
   1508970993, 2453635748, 2870763221, 3624381080, 310598401,
   607225278, 1426881987, 1925078388, 2162078206, 2614888103,
   3248222580, 3835390401, 4022224774, 264347078, 604807628,
   770255983, 1249150122, 1555081692, 1996064986, 2554220882,
   2821834349, 2952996808, 3210313671, 3336571891, 3584528711,
   113926993, 338241895, 666307205, 773529912, 1294757372,
   1396182291, 1695183700, 1986661051, 2177026350, 2456956037,
   2730485921, 2820302411, 3259730800, 3345764771, 3516065817,
   3600352804, 4094571909, 275423344, 430227734, 506948616,
   659060556, 883997877, 958139571, 1322822218, 1537002063,
   1747873779, 1955562222, 2024104815, 2227730452, 2361852424,
   2428436474, 2756734187, 3204031479, 3329325298]

def sha256H0 : List Nat :=
  [1779033703, 3144134277, 1013904242, 2773480762, 1359893119,
   2600822924, 528734635, 1541459225]

def toWords : List Nat → List Nat
  | b0 :: b1 :: b2 :: b3 :: rest => (b0 * 16777216 + b1 * 65536 + b2 * 256 + b3) :: toWords rest
  | _ => []

def sha256Schedule (ws : List Nat) : Array Nat :=
  (List.range 48).foldl
    (fun arr t =>
      let i := t + 16
      arr.push (w32 (smallSigma1 (arr.get! (i - 2)) + arr.get! (i - 7) +
        smallSigma0 (arr.get! (i - 15)) + arr.get! (i - 16))))
    ws.toArray

def sha256Compress (hs : List Nat) (block : List Nat) : List Nat :=
  let w := sha256Schedule (toWords block)
  let kArr := sha256K.toArray
  let step := fun (st : Nat × Nat × Nat × Nat × Nat × Nat × Nat × Nat) (t : Nat) =>
    let (a, b, c, d, e, f, g, h) := st
    let t1 := w32 (h + bigSigma1 e + chFn e f g + kArr.get! t + w.get! t)
    let t2 := w32 (bigSigma0 a + majFn a b c)
    (w32 (t1 + t2), a, b, c, w32 (d + t1), e, f, g)
  let init := (hs.get! 0, hs.get! 1, hs.get! 2, hs.get! 3, hs.get! 4, hs.get! 5, hs.get! 6, hs.get! 7)
  let fin := (List.range 64).foldl step init
  let (a, b, c, d, e, f, g, h) := fin
  [w32 (hs.get! 0 + a), w32 (hs.get! 1 + b), w32 (hs.get! 2 + c), w32 (hs.get! 3 + d),
   w32 (hs.get! 4 + e), w32 (hs.get! 5 + f), w32 (hs.get! 6 + g), w32 (hs.get! 7 + h)]

def beBytes8 (n : Nat) : List Nat :=
  [(n >>> 56) % 256, (n >>> 48) % 256, (n >>> 40) % 256, (n >>> 32) % 256,
   (n >>> 24) % 256, (n >>> 16) % 256, (n >>> 8) % 256, n % 256]

def beBytes4 (n : Nat) : List Nat :=
  [(n >>> 24) % 256, (n >>> 16) % 256, (n >>> 8) % 256, n % 256]

def sha256Pad (msg : List Nat) : List Nat :=
  let len := msg.length
  let zeros := (120 - ((len + 1) % 64)) % 64
  msg ++ [128] ++ List.replicate zeros 0 ++ beBytes8 (len * 8)

def chunks64Fuel : Nat → List Nat → List (List Nat)
  | _, [] => []
  | 0, _ => []
  | fuel + 1, x :: xs => (x :: xs.take 63) :: chunks64Fuel fuel (xs.drop 63)

def chunks64 (xs : List Nat) : List (List Nat) := chunks64Fuel xs.length xs

def sha256 (msg : List Nat) : List Nat :=
  ((chunks64 (sha256Pad msg)).foldl sha256Compress sha256H0).map beBytes4 |>.flatten

/-! ### base64url (RFC 4648 URL alphabet, unpadded — Go base64.RawURLEncoding) -/

def b64alphabet : List Char :=
  "ABCDEFGHIJKLMNOPQRSTUVWXYZabcdefghijklmnopqrstuvwxyz0123456789-_".data

def b64c (n : Nat) : Char := b64alphabet.getD n 'A'

def b64encChars : List Nat → List Char
  | b0 :: b1 :: b2 :: rest =>
    let n := b0 * 65536 + b1 * 256 + b2
    b64c ((n >>> 18) % 64) :: b64c ((n >>> 12) % 64) :: b64c ((n >>> 6) % 64) ::
      b64c (n % 64) :: b64encChars rest
  | [b0, b1] =>
    let n := b0 * 1024 + b1 * 4
    [b64c ((n >>> 12) % 64), b64c ((n >>> 6) % 64), b64c (n % 64)]
  | [b0] =>
    let n := b0 * 16
    [b64c ((n >>> 6) % 64), b64c (n % 64)]
  | [] => []

def base64urlEncode (bs : List Nat) : String := String.mk (b64encChars bs)

/-- Bytes of an ASCII string (the code only hashes base64url output, which is ASCII). -/
def strBytes (s : String) : List Nat := s.data.map Char.toNat

/-- Go `string(b)` for a byte slice, restricted to the ASCII range used here. -/
def strOfBytes (bs : List Nat) : String := String.mk (bs.map Char.ofNat)

/-! ### Data model: configuration (config.Config / config/auth), tokens, errors -/

/-- Models `golang.org/x/oauth2.Token`: access token, refresh token, and whether
the expiry deadline has passed (`expired` abstracts the wall-clock comparison). -/
structure OAuth2Token where
  accessToken : String
  refreshToken : String
  expired : Bool
  deriving DecidableEq, Repr

/-- Models `oauth2.Token.Valid()` from the x/oauth2 library: a token is valid when
it is non-empty and not expired. -/
def tokenValid (t : OAuth2Token) : Bool := t.accessToken != "" && !t.expired

structure X509Config where
  certPath : String
  keyPath : String
  cert : String
  key : String
  deriving DecidableEq, Repr

structure OAuth2Conf where
  clientId : String
  clientSecret : String
  authUrl : String
  tokenUrl : String
  scopes : List String
  cachedToken : Option OAuth2Token
  deriving DecidableEq, Repr

structure BasicConf where
  username : String
  password : String
  deriving DecidableEq, Repr

structure LdapConf where
  username : String
  password : String
  deriving DecidableEq, Repr

structure GSAConf where
  file : String
  cachedToken : Option OAuth2Token
  deriving DecidableEq, Repr

/-- IAP parameters are opaque to the resolver; they are handed to the external
identity-token provider wholesale. -/
structure IapConf where
  audience : String
  deriving DecidableEq, Repr

structure AuthConfig where
  enabled : Bool
  x509 : Option X509Config
  oauth2 : Option OAuth2Conf
  iap : Option IapConf
  basic : Option BasicConf
  ldap : Option LdapConf
  googleServiceAccount : Option GSAConf
  deriving DecidableEq, Repr

structure Config where
  gateEndpoint : String
  auth : Option AuthConfig
  deriving DecidableEq, Repr

/-- Modelled from the spec: `X509Config.IsValid` lives in the repository's
`config/auth` package, outside the given sources. The spec says it "validates
that exactly one credential source is populated (path pair XOR inline pair)". -/
def X509Config.IsValid (x : X509Config) : Bool :=
  (x.certPath != "" && x.keyPath != "") != (x.cert != "" && x.key != "")

/-- Modelled from the spec: `Basic.IsValid` is in `config/auth`, outside the given
sources; the error message demands "username and password". -/
def BasicConf.IsValid (b : BasicConf) : Bool := b.username != "" && b.password != ""

/-- Modelled from the spec: `Ldap.IsValid` is in `config/auth`, outside the given
sources; the spec says LDAP "fails with ConfigurationError if either remains empty". -/
def LdapConf.IsValid (l : LdapConf) : Bool := l.username != "" && l.password != ""

/-- Modelled from the spec: `OAuth2Config.IsValid` is in `config/auth`, outside the
given sources; the spec requires the client id/secret and authorize/token URLs. -/
def OAuth2Conf.IsValid (o : OAuth2Conf) : Bool :=
  o.clientId != "" && o.clientSecret != "" && o.authUrl != "" && o.tokenUrl != ""

/-- Modelled from the spec: `GoogleServiceAccount.IsEnabled` is in `config/auth`,
outside the given sources; per the spec the section (holding only `file` and
`cachedToken`) counts as enabled when it is present. -/
def gsaIsEnabled (g : Option GSAConf) : Bool := g.isSome

/-! ### Errors, environment, observable actions, client state -/

inductive Err where
  | configX509
  | configBasic
  | configOAuth2
  | configLdap
  | ioErr (msg : String)
  | network (msg : String)
  deriving DecidableEq, Repr

/-- Result of a fallible external call. -/
inductive Res (α : Type) where
  | ok (a : α)
  | err (e : Err)
  deriving DecidableEq, Repr

/-- Result of `os.Stat` on the config destination path. -/
inductive StatResult where
  | ok (mode : Nat)
  | notExist
  | otherErr
  deriving DecidableEq, Repr

structure TLSCert where
  pem : String
  deriving DecidableEq, Repr

inductive Handler where
  | x509
  | iap
  | basic
  | oauth2
  | googleServiceAccount
  | ldap
  deriving DecidableEq, Repr

inductive Action where
  | handlerRun (h : Handler)
  | infoMsg (s : String)
  | warnMsg (s : String)
  | outputAuthURL (url : String) (params : List (String × String))
  | promptInput (msg : String)
  | securePromptInput (msg : String)
  | startLocalListener (port : Nat)
  | httpGet (url : String) (bearer : String)
  | httpPost (url : String) (contentType : String) (form : List (String × String))
  | oauthTokenRefresh
  | oauthExchange (code : String) (params : List (String × String))
  | gsaTokenFetch
  | iapTokenFetch
  | readFile (path : String)
  | writeFile (mode : Nat)
  deriving DecidableEq, Repr

def Action.isNetworkCall : Action → Bool
  | .httpGet _ _ => true
  | .httpPost _ _ _ => true
  | .oauthTokenRefresh => true
  | .oauthExchange _ _ => true
  | .gsaTokenFetch => true
  | .iapTokenFetch => true
  | _ => false

/-- Results of all external calls a run may perform, fixed up front so the
embedded functions are pure. -/
structure Env where
  randErr : Bool
  randomBytes64 : List Nat
  promptedCode : String
  refreshResult : Res OAuth2Token
  exchangeResult : Res OAuth2Token
  iapResult : Res String
  gsaDefaultSourceErr : Option Err
  gsaFileReadErr : Option Err
  gsaJwtSourceErr : Option Err
  gsaTokenResult : Res OAuth2Token
  loginReqErr : Option Err
  loginDoResult : Res Unit
  ldapPromptUser : String
  ldapPromptPass : String
  ldapReqErr : Option Err
  ldapDoErr : Option Err
  expandCertPath : Res String
  expandKeyPath : Res String
  loadKeyPairResult : Res TLSCert
  readCertFileResult : Res (List Nat)
  inlineKeyPairResult : Res TLSCert
  statDest : StatResult
  writeFileErr : Option Err
  deriving DecidableEq, Repr

/-- The auth context stored in `m.Context`. -/
inductive AuthCtx where
  | uninit
  | background
  | accessToken (tok : String)
  | basicAuth (username password : String)
  deriving DecidableEq, Repr

/-- `client.Transport` when the X509 branch installs its own `http.Transport`
with a `tls.Config`; `none` means the client falls back to
`http.DefaultTransport`. -/
structure Transport where
  minVersion12 : Bool
  preferServerCipherSuites : Bool
  certificates : List TLSCert
  insecureSkipVerify : Bool
  deriving DecidableEq, Repr

def emptyTransport : Transport :=
  { minVersion12 := false, preferServerCipherSuites := false,
    certificates := [], insecureSkipVerify := false }

/-- Mutable state of a `GatewayClient` run: the (mutable) auth config, the auth
context, the client's own transport, the process-global
`http.DefaultTransport.TLSClientConfig.InsecureSkipVerify` flag, and the
recorded observable actions. -/
structure St where
  endpoint : String
  auth : Option AuthConfig
  ctx : AuthCtx
  transport : Option Transport
  globalInsecure : Bool
  acts : List Action
  deriving DecidableEq, Repr

/-- Result of a call: normal return without error, an error return, or a runtime
panic (nil dereference). -/
inductive Outcome where
  | ok
  | fail (e : Err)
  | panicked
  deriving DecidableEq, Repr

/-! ### Embedded functions (GatewayClient, src/unnamed/part_001) -/

/-- Embeds `GatewayClient.GateEndpoint`. -/
def GateEndpoint (cfgEndpoint flagEndpoint : String) : String :=
  if cfgEndpoint = "" && flagEndpoint = "" then "http://localhost:8084"
  else if flagEndpoint != "" then flagEndpoint
  else cfgEndpoint

/-- The 64-byte buffer `make([]byte, 64)` as filled by `rand.Read`, with the
environment supplying the random bytes. -/
def randBuf (env : Env) : List Nat :=
  (List.range 64).map (fun i => env.randomBytes64.getD i 0 % 256)

/-- Embeds `GatewayClient.generateCodeVerifier`: 64 random bytes, base64url-encode
to get the verifier, then base64url-encode the SHA-256 of the verifier string. -/
def generateCodeVerifier (env : Env) : Res (String × String) :=
  if env.randErr then .err (.ioErr "rand") else
  let verifier := base64urlEncode (randBuf env)
  let code := base64urlEncode (sha256 (strBytes verifier))
  .ok (verifier, code)

/-- Models `oauth2.Config.AuthCodeURL`: the query parameters carried by the
produced authorization URL, with the caller's extra options appended in order. -/
def authCodeURLParams (o : OAuth2Conf) (state : String)
    (opts : List (String × String)) : List (String × String) :=
  [("response_type", "code"), ("client_id", o.clientId)] ++
  [("redirect_uri", "http://localhost:8085")] ++
  (if o.scopes.isEmpty then [] else [("scope", String.intercalate " " o.scopes)]) ++
  [("state", state)] ++ opts

def lookupParam (k : String) : List (String × String) → Option String
  | [] => none
  | (k', v) :: rest => if k' = k then some v else lookupParam k rest

/-- Embeds `GatewayClient.initializeX509Config`: minimum TLS 1.2, server cipher
preference, exactly the loaded certificate, and skip-verify when the insecure
flag is set. -/
def initializeX509Config (ins : Bool) (cert : TLSCert) (st : St) : St :=
  let t : Transport :=
    { minVersion12 := true
      preferServerCipherSuites := true
      certificates := [cert]
      insecureSkipVerify := ins }
  { st with transport := some t }

/-- The X509 case of `initializeClient`'s switch. -/
def x509Branch (ins : Bool) (env : Env) (x : X509Config) (st : St) : St × Outcome :=
  let st := { st with transport := some emptyTransport,
                      acts := st.acts ++ [.handlerRun .x509] }
  if !x.IsValid then (st, .fail .configX509)
  else if x.certPath != "" && x.keyPath != "" then
    match env.expandCertPath with
    | .err e => (st, .fail e)
    | .ok certPath =>
      match env.expandKeyPath with
      | .err e => (st, .fail e)
      | .ok keyPath =>
        match env.loadKeyPairResult with
        | .err e => (st, .fail e)
        | .ok cert =>
          match env.readCertFileResult with
          | .err e => (st, .fail e)
          | .ok _clientCA =>
            (initializeX509Config ins cert
              { st with acts := st.acts ++
                  [.readFile certPath, .readFile keyPath, .readFile certPath] }, .ok)
  else if x.cert != "" && x.key != "" then
    match env.inlineKeyPairResult with
    | .err e => (st, .fail e)
    | .ok cert => (initializeX509Config ins cert st, .ok)
  else (st, .fail .configX509)

/-- The IAP case of `initializeClient`'s switch: `m.Context` is assigned before
the error from `authenticateIAP` is looked at (an error yields an empty token). -/
def iapBranch (env : Env) (st : St) : St × Outcome :=
  let st := { st with acts := st.acts ++ [Action.handlerRun .iap, Action.iapTokenFetch] }
  match env.iapResult with
  | .ok tok => ({ st with ctx := .accessToken tok }, .ok)
  | .err e => ({ st with ctx := .accessToken "" }, .fail e)

/-- The Basic case of `initializeClient`'s switch. -/
def basicBranch (b : BasicConf) (st : St) : St × Outcome :=
  let st := { st with acts := st.acts ++ [.handlerRun .basic] }
  if !b.IsValid then (st, .fail .configBasic)
  else ({ st with ctx := .basicAuth b.username b.password }, .ok)

/-- Embeds `GatewayClient.initializeClient`: sets the process-global insecure
flag when requested, then dispatches on the first matching case of the switch
(X509, then IAP, then Basic); with no match the plain cookie-jar client is
returned. -/
def initializeClient (ins : Bool) (env : Env) (st0 : St) : St × Outcome :=
  let st := { st0 with globalInsecure := st0.globalInsecure || ins }
  match st.auth with
  | none => (st, .ok)
  | some auth =>
    if !auth.enabled then (st, .ok)
    else
      match auth.x509 with
      | some x => x509Branch ins env x st
      | none =>
        match auth.iap with
        | some _ => iapBranch env st
        | none =>
          match auth.basic with
          | some b => basicBranch b st
          | none => (st, .ok)

/-- Embeds `writeYAML` (the TokenCache write): what the function does for each
result of `os.Stat(dest)`. When the file does not exist, `os.IsNotExist(err)`
holds, so the early return is skipped and `info.Mode()` dereferences the nil
`FileInfo`; on any other stat error the function returns nil without writing;
otherwise `ioutil.WriteFile` runs with the existing file's mode. The
`defaultMode` argument is never consulted. -/
inductive WriteOutcome where
  | wrote (mode : Nat) (res : Option Err)
  | statErrSkipped
  | panicNilDeref
  deriving DecidableEq, Repr

def writeYAML (stat : StatResult) (defaultMode : Nat) (writeErr : Option Err) : WriteOutcome :=
  match stat, defaultMode with
  | .ok mode, _ => .wrote mode writeErr
  | .notExist, _ => .panicNilDeref
  | .otherErr, _ => .statErrSkipped

/-- The numeric value of `defaultConfigFileMode` = 0600 (owner read/write). -/
def defaultConfigFileMode : Nat := 0o600

/-- Embeds `GatewayClient.writeYAMLConfig`: calls `writeYAML` with
`defaultConfigFileMode`, warns on an error result, and returns the error (which
every caller discards). -/
def writeYAMLConfigStep (env : Env) (st : St) : St × Outcome :=
  match writeYAML env.statDest defaultConfigFileMode env.writeFileErr with
  | .panicNilDeref => (st, .panicked)
  | .statErrSkipped => (st, .ok)
  | .wrote mode none => ({ st with acts := st.acts ++ [.writeFile mode] }, .ok)
  | .wrote mode (some e) =>
    ({ st with acts := st.acts ++ [.writeFile mode,
        .warnMsg "Error caching oauth2 token"] }, .fail e)

/-- Embeds `GatewayClient.login`: build a GET to `<endpoint>/login` with a bearer
header, execute it, and discard both the response and the transport error; only
a request-construction failure is returned. -/
def loginStep (env : Env) (st : St) (accessToken : String) : St × Outcome :=
  match env.loginReqErr with
  | some e => (st, .fail e)
  | none =>
    ({ st with acts := st.acts ++ [.httpGet (st.endpoint ++ "/login") accessToken] }, .ok)

/-- The shared tail of `authenticateOAuth2` after a token has been acquired:
cache the token into the config, persist (error discarded), session-login
(result discarded), and reset the context. -/
def oauth2Finish (env : Env) (o : OAuth2Conf) (newToken : OAuth2Token) (st : St) : St × Outcome :=
  let st := { st with
    auth := st.auth.map (fun a => { a with oauth2 := some { o with cachedToken := some newToken } }),
    acts := st.acts ++ [.infoMsg "Caching oauth2 token."] }
  match writeYAMLConfigStep env st with
  | (st', .panicked) => (st', .panicked)
  | (st', _) =>
    let (st'', _) := loginStep env st' newToken.accessToken
    ({ st'' with ctx := .background }, .ok)

/-- Embeds `GatewayClient.authenticateOAuth2`. -/
def authenticateOAuth2 (env : Env) (st : St) : St × Outcome :=
  match st.auth with
  | none => (st, .ok)
  | some auth =>
    match auth.oauth2 with
    | none => (st, .ok)
    | some o =>
      if !auth.enabled then (st, .ok)
      else
        let st := { st with acts := st.acts ++ [.handlerRun .oauth2] }
        if !o.IsValid then (st, .fail .configOAuth2)
        else
          match o.cachedToken with
          | some _tok =>
            let st := { st with acts := st.acts ++ [.oauthTokenRefresh] }
            match env.refreshResult with
            | .err e => (st, .fail e)
            | .ok newToken => oauth2Finish env o newToken st
          | none =>
            let st := { st with acts := st.acts ++ [.startLocalListener 8085] }
            match generateCodeVerifier env with
            | .err e => (st, .fail e)
            | .ok (verifier, verifierCode) =>
              let params := authCodeURLParams o "state-token"
                [("access_type", "offline"), ("approval_prompt", "force"),
                 ("code_challenge_method", "S256"), ("code_challenge", verifierCode)]
              let st := { st with acts := st.acts ++
                [.outputAuthURL o.authUrl params,
                 .promptInput "Paste authorization code:",
                 .oauthExchange env.promptedCode [("code_verifier", verifier)]] }
              match env.exchangeResult with
              | .err e => (st, .fail e)
              | .ok newToken => oauth2Finish env o newToken st

/-- Whether the Google-service-account handler must fetch a fresh token
(no cached token, or the cached token is invalid). -/
def gsaFetchNeeded (g : GSAConf) : Bool :=
  match g.cachedToken with
  | none => true
  | some t => !tokenValid t

/-- The fetch path of `authenticateGoogleServiceAccount`: clear the cached token,
build a token source (ambient default credentials, or a JWT source from the key
file), fetch one token, session-login, then cache and persist. -/
def gsaFetch (env : Env) (auth : AuthConfig) (g : GSAConf) (st : St) : St × Outcome :=
  let clearTok := fun (c : Option OAuth2Token) =>
    { st with auth := some { auth with googleServiceAccount := some { g with cachedToken := c } } }
  let st := clearTok none
  let srcErr : Option Err :=
    if g.file = "" then env.gsaDefaultSourceErr
    else match env.gsaFileReadErr with
      | some fe => some fe
      | none => env.gsaJwtSourceErr
  let st := if g.file = "" then st else { st with acts := st.acts ++ [.readFile g.file] }
  match srcErr with
  | some e => (st, .fail e)
  | none =>
    let st := { st with acts := st.acts ++ [.gsaTokenFetch] }
    match env.gsaTokenResult with
    | .err e => (st, .fail e)
    | .ok token =>
      match loginStep env st token.accessToken with
      | (st', .fail e) => (st', .fail e)
      | (st', _) =>
        let st'' := { st' with
          auth := some { auth with googleServiceAccount := some { g with cachedToken := some token } },
          ctx := .background }
        match writeYAMLConfigStep env st'' with
        | (st3, .panicked) => (st3, .panicked)
        | (st3, _) => (st3, .ok)

/-- Embeds `GatewayClient.authenticateGoogleServiceAccount`: a valid cached token
is reused directly via session login; otherwise the fetch path runs. -/
def authenticateGoogleServiceAccount (env : Env) (st : St) : St × Outcome :=
  match st.auth with
  | none => (st, .ok)
  | some auth =>
    if !gsaIsEnabled auth.googleServiceAccount then (st, .ok)
    else
      match auth.googleServiceAccount with
      | none => (st, .ok)
      | some g =>
        let st := { st with acts := st.acts ++ [.handlerRun .googleServiceAccount] }
        match g.cachedToken with
        | some t =>
          if tokenValid t then loginStep env st t.accessToken
          else gsaFetch env auth g st
        | none => gsaFetch env auth g st

/-- Embeds `GatewayClient.authenticateLdap`. The `err` from `http.NewRequest` is
only checked after `loginReq.Header.Set`, so a construction failure (nil
request) is a nil-pointer panic. -/
def authenticateLdap (env : Env) (st : St) : St × Outcome :=
  match st.auth with
  | none => (st, .ok)
  | some auth =>
    match auth.ldap with
    | none => (st, .ok)
    | some l =>
      if !auth.enabled then (st, .ok)
      else
        let st := { st with acts := st.acts ++ [Action.handlerRun .ldap] }
        let (st, username) :=
          if l.username = "" then
            ({ st with acts := st.acts ++ [Action.promptInput "Username:"] }, env.ldapPromptUser)
          else (st, l.username)
        let (st, password) :=
          if l.password = "" then
            ({ st with acts := st.acts ++ [Action.securePromptInput "Password:"] }, env.ldapPromptPass)
          else (st, l.password)
        let l' : LdapConf := { username := username, password := password }
        let st := { st with auth := some { auth with ldap := some l' } }
        if !l'.IsValid then (st, .fail .configLdap)
        else
          match env.ldapReqErr with
          | some _ => (st, .panicked)
          | none =>
            let st := { st with acts := st.acts ++
              [Action.httpPost (st.endpoint ++ "/login") "application/x-www-form-urlencoded"
                [("username", username), ("password", password)]] }
            match env.ldapDoErr with
            | some _ => (st, .fail (.network "ldap authentication failed"))
            | none => ({ st with ctx := .background }, .ok)

/-- The authentication pipeline of `NewGateClient` (part_001): initializeClient,
then authenticateOAuth2, authenticateGoogleServiceAccount, authenticateLdap,
each aborting the run on error. -/
def initialState (cfg : Config) (flagEndpoint : String) : St :=
  { endpoint := GateEndpoint cfg.gateEndpoint flagEndpoint,
    auth := cfg.auth, ctx := .uninit, transport := none,
    globalInsecure := false, acts := [] }

def resolveAuth (cfg : Config) (flagEndpoint : String) (ins : Bool) (env : Env) : St × Outcome :=
  match initializeClient ins env (initialState cfg flagEndpoint) with
  | (st, .ok) =>
    match authenticateOAuth2 env st with
    | (st, .ok) =>
      match authenticateGoogleServiceAccount env st with
      | (st, .ok) => authenticateLdap env st
      | r => r
    | r => r
  | r => r

/-! ### Legacy client (ApiMeta, src/unnamed/part_000): fresh OAuth2 branch -/

/-- What the legacy fresh (non-cached) OAuth2 branch of `ApiMeta.Authenticate`
computes from the 5 random bytes: the verifier is the raw byte string itself,
the authorization URL carries that same string as `code_challenge` (and no
`code_challenge_method`), and the exchange receives it as `code_verifier`. -/
structure LegacyFresh where
  verifier : String
  urlParams : List (String × String)
  exchangeParams : List (String × String)
  deriving DecidableEq, Repr

/-- Embeds lines 285-298 of the legacy `ApiMeta.Authenticate`
(`verifierBytes := make([]byte, 5)`; `verifier := string(verifierBytes)`;
`codeChallenge := SetAuthURLParam("code_challenge", verifier)`;
`codeVerifier := SetAuthURLParam("code_verifier", verifier)`;
`AuthCodeURL("state-token", AccessTypeOffline, ApprovalForce, codeChallenge)`;
`Exchange(ctx, code, codeVerifier)`). -/
def legacyAuthenticateFresh (randomBytes5 : List Nat) (o : OAuth2Conf) : LegacyFresh :=
  let verifier := strOfBytes randomBytes5
  { verifier := verifier,
    urlParams := authCodeURLParams o "state-token"
      [("access_type", "offline"), ("approval_prompt", "force"),
       ("code_challenge", verifier)],
    exchangeParams := [("code_verifier", verifier)] }

/-! ### Declarative descriptions used by the resolver-order claim -/

/-- The handler (at most one) picked by `initializeClient`'s switch: the first
enabled of X509, IAP, Basic. -/
def switchPick (a? : Option AuthConfig) : List Handler :=
  match a? with
  | none => []
  | some a =>
    if !a.enabled then []
    else if a.x509.isSome then [.x509]
    else if a.iap.isSome then [.iap]
    else if a.basic.isSome then [.basic]
    else []

/-- The guard of the OAuth2 handler (`auth != nil && auth.Enabled && auth.OAuth2 != nil`). -/
def oauthGuard (a? : Option AuthConfig) : Bool :=
  match a? with
  | none => false
  | some a => a.enabled && a.oauth2.isSome

/-- The guard of the Google-service-account handler (`auth != nil && gsa.IsEnabled()`). -/
def gsaGuard (a? : Option AuthConfig) : Bool :=
  match a? with
  | none => false
  | some a => a.googleServiceAccount.isSome

/-- The guard of the LDAP handler (`auth != nil && auth.Enabled && auth.Ldap != nil`). -/
def ldapGuard (a? : Option AuthConfig) : Bool :=
  match a? with
  | none => false
  | some a => a.enabled && a.ldap.isSome

/-- The Google-service-account handler runs and takes its fetch path. -/
def gsaFetchGuard (a? : Option AuthConfig) : Bool :=
  match a? with
  | none => false
  | some a =>
    match a.googleServiceAccount with
    | none => false
    | some g => gsaFetchNeeded g

/-- The tail handlers that run after the switch, in order. -/
def tailEnabled (a? : Option AuthConfig) : List Handler :=
  (if oauthGuard a? then [Handler.oauth2] else []) ++
  (if gsaGuard a? then [Handler.googleServiceAccount] else []) ++
  (if ldapGuard a? then [Handler.ldap] else [])

def handlersOf (acts : List Action) : List Handler :=
  acts.filterMap (fun a => match a with | .handlerRun h => some h | _ => none)

/-- Whether some tail handler writes the shared auth context (OAuth2 and LDAP
always do when they run; the Google-service-account handler only on its fetch
path). -/
def tailWritesCtx (a? : Option AuthConfig) : Bool :=
  oauthGuard a? || gsaFetchGuard a? || ldapGuard a?

/-- The context written by the switch-picked handler (X509 writes none). -/
def switchCtx (a? : Option AuthConfig) (env : Env) : AuthCtx :=
  match a? with
  | none => .uninit
  | some a =>
    if !a.enabled then .uninit
    else if a.x509.isSome then .uninit
    else if a.iap.isSome then
      (match env.iapResult with
       | .ok t => .accessToken t
       | .err _ => .accessToken "")
    else
      match a.basic with
      | some b => .basicAuth b.username b.password
      | none => .uninit

/-- The final auth context: the last handler to write it wins; every tail writer
writes `background`. -/
def finalCtxModel (a? : Option AuthConfig) (env : Env) : AuthCtx :=
  if tailWritesCtx a? then .background else switchCtx a? env

/-- A transport-less client resolves TLS behaviour from the process-global
default transport. -/
def effectiveInsecure (clientTransport : Option Transport) (globalInsecure : Bool) : Bool :=
  match clientTransport with
  | some t => t.insecureSkipVerify
  | none => globalInsecure

/-- The state fields that none of the post-switch handlers touch. -/
def frameOK (st st' : St) : Prop :=
  st'.globalInsecure = st.globalInsecure ∧ st'.transport = st.transport ∧
  st'.endpoint = st.endpoint

/-- The environment lets the Google-service-account handler construct its token
source (ambient default credentials when no key file is configured, otherwise a
readable key file and a JWT source). -/
def gsaSourceOk (env : Env) (g : GSAConf) : Prop :=
  (g.file = "" → env.gsaDefaultSourceErr = none) ∧
  (g.file ≠ "" → env.gsaFileReadErr = none ∧ env.gsaJwtSourceErr = none)

/-! ### Concrete fixtures used by witnesses and counterexamples -/

def testOAuth : OAuth2Conf :=
  { clientId := "cid", clientSecret := "sec", authUrl := "https://auth", tokenUrl := "https://tok",
    scopes := [], cachedToken := none }

def testEnv : Env :=
  { randErr := false, randomBytes64 := [], promptedCode := "thecode",
    refreshResult := .ok { accessToken := "at", refreshToken := "rt", expired := false },
    exchangeResult := .ok { accessToken := "xt", refreshToken := "xr", expired := false },
    iapResult := .ok "iaptok",
    gsaDefaultSourceErr := none, gsaFileReadErr := none, gsaJwtSourceErr := none,
    gsaTokenResult := .ok { accessToken := "gt", refreshToken := "", expired := false },
    loginReqErr := none, loginDoResult := .ok (),
    ldapPromptUser := "pu", ldapPromptPass := "pp",
    ldapReqErr := none, ldapDoErr := none,
    expandCertPath := .ok "/c", expandKeyPath := .ok "/k",
    loadKeyPairResult := .ok { pem := "CERT" }, readCertFileResult := .ok [1, 2],
    inlineKeyPairResult := .ok { pem := "ICERT" },
    statDest := .ok 384, writeFileErr := none }

def testAuthX509Basic : AuthConfig :=
  { enabled := true,
    x509 := some { certPath := "cp", keyPath := "kp", cert := "", key := "" },
    oauth2 := none, iap := none,
    basic := some { username := "u", password := "p" },
    ldap := none, googleServiceAccount := none }

/-- An empty auth section template for building concrete configurations. -/
def noAuth : AuthConfig :=
  { enabled := true, x509 := none, oauth2 := none, iap := none,
    basic := none, ldap := none, googleServiceAccount := none }

/-- A bare client state (fresh run against endpoint `"e"`) for concrete runs. -/
def testSt : St :=
  { endpoint := "e", auth := none, ctx := .uninit, transport := none,
    globalInsecure := false, acts := [] }

def testTokenExpired : OAuth2Token :=
  { accessToken := "at", refreshToken := "rt", expired := true }

def testTokenFresh : OAuth2Token :=
  { accessToken := "at", refreshToken := "rt", expired := false }

end Spin

namespace Spin

/-! ### Shared helper lemmas -/

theorem handlersOf_append (a b : List Action) :
    handlersOf (a ++ b) = handlersOf a ++ handlersOf b := by
  simp [handlersOf, List.filterMap_append]

/-! ### Claim theorems -/

/-- C2: the claim states that a token-cache write preserves an existing file's
permission mode and writes a fresh file with mode 0600. The code instead
dereferences a nil `FileInfo` when the file does not exist (`os.IsNotExist`
skips the early return, then `info.Mode()` panics), and the `defaultMode`
argument is ignored on every path; only the existing-file half of the claim
holds. -/
theorem writeYAML_missing_file_panics :
    writeYAML .notExist defaultConfigFileMode none = .panicNilDeref ∧
    (∀ s d₁ d₂ r, writeYAML s d₁ r = writeYAML s d₂ r) ∧
    (∀ m r, writeYAML (.ok m) defaultConfigFileMode r = .wrote m r) := by
  refine ⟨rfl, ?_, fun m r => rfl⟩
  intro s d₁ d₂ r
  cases s <;> rfl

/-- C9: `login` discards both the response and the transport error of the GET to
`<endpoint>/login` and returns nil; only request construction can fail, and in
particular the Google-service-account handler (which checks login's return
value) cannot observe a session-login network failure. -/
theorem login_discards_http_outcome (env : Env) (st : St) (tok : String) (d : Res Unit) :
    loginStep { env with loginDoResult := d } st tok = loginStep env st tok ∧
    (env.loginReqErr = none → (loginStep env st tok).2 = .ok) ∧
    (∀ e, env.loginReqErr = some e → loginStep env st tok = (st, .fail e)) ∧
    authenticateGoogleServiceAccount { env with loginDoResult := d } st =
      authenticateGoogleServiceAccount env st := by
  refine ⟨?_, ?_, ?_, ?_⟩
  · cases h : env.loginReqErr <;> simp [loginStep, h]
  · intro h; simp [loginStep, h]
  · intro e h; simp [loginStep, h]
  · cases env
    rfl

/-- C9 witness. -/
theorem login_discards_http_outcome_witness :
    testEnv.loginReqErr = none ∧ (loginStep testEnv testSt "tk").2 = .ok := by
  have h := login_discards_http_outcome testEnv testSt "tk" (.err (.network "boom"))
  exact ⟨by decide, h.2.1 (by decide)⟩

/-- C4: with a cached OAuth2 token present (whatever its expiry), the handler
never prints an authorization URL, never starts the local listener, and never
blocks on the terminal prompt; when the config section is valid it builds a
refreshing token source, and an error from that source is propagated with no
fallback to the interactive flow. -/
theorem oauth2_cached_token_no_interactive
    (env : Env) (st : St) (auth : AuthConfig) (o : OAuth2Conf) (t : OAuth2Token)
    (hauth : st.auth = some auth) (hen : auth.enabled = true)
    (ho : auth.oauth2 = some o) (hct : o.cachedToken = some t)
    (hacts : st.acts = []) :
    (∀ m, Action.promptInput m ∉ (authenticateOAuth2 env st).1.acts) ∧
    (∀ u ps, Action.outputAuthURL u ps ∉ (authenticateOAuth2 env st).1.acts) ∧
    (∀ p, Action.startLocalListener p ∉ (authenticateOAuth2 env st).1.acts) ∧
    (o.IsValid = true →
      Action.oauthTokenRefresh ∈ (authenticateOAuth2 env st).1.acts ∧
      ∀ e, env.refreshResult = .err e → (authenticateOAuth2 env st).2 = .fail e) := by
  by_cases hv : o.IsValid = true
  · cases hr : env.refreshResult with
    | err e =>
      simp [authenticateOAuth2, hauth, hen, ho, hct, hacts, hv, hr]
    | ok tk =>
      cases hs : env.statDest <;> cases hwe : env.writeFileErr <;>
        cases hl : env.loginReqErr <;>
          simp [authenticateOAuth2, oauth2Finish, writeYAMLConfigStep, writeYAML, loginStep,
            hauth, hen, ho, hct, hacts, hv, hr, hs, hwe, hl]
  · have hv' : o.IsValid = false := by
      cases h : o.IsValid
      · rfl
      · exact absurd h hv
    simp [authenticateOAuth2, hauth, hen, ho, hct, hacts, hv']

/-- C4 witness: a client whose OAuth2 section carries an expired cached token. -/
theorem oauth2_cached_token_no_interactive_witness :
    Action.promptInput "Paste authorization code:" ∉ (authenticateOAuth2 testEnv
      { testSt with auth := some { noAuth with
          oauth2 := some { testOAuth with cachedToken := some testTokenExpired } } }).1.acts ∧
    Action.oauthTokenRefresh ∈ (authenticateOAuth2 testEnv
      { testSt with auth := some { noAuth with
          oauth2 := some { testOAuth with cachedToken := some testTokenExpired } } }).1.acts := by
  have h := oauth2_cached_token_no_interactive testEnv
    { testSt with auth := some { noAuth with
        oauth2 := some { testOAuth with cachedToken := some testTokenExpired } } }
    { noAuth with oauth2 := some { testOAuth with cachedToken := some testTokenExpired } }
    { testOAuth with cachedToken := some testTokenExpired }
    testTokenExpired rfl rfl rfl rfl rfl
  exact ⟨h.1 "Paste authorization code:", (h.2.2.2 (by decide)).1⟩

/-- C5: with X509 auth enabled, client construction rejects any configuration
that does not populate exactly one credential source (path pair XOR inline
pair) with a ConfigurationError before any network call; with exactly one
source populated and the credential material loading cleanly, construction
does not fail. -/
theorem x509_requires_exactly_one_source
    (cfg : Config) (f : String) (ins : Bool) (env : Env)
    (auth : AuthConfig) (x : X509Config)
    (hcfg : cfg.auth = some auth) (hen : auth.enabled = true) (hx : auth.x509 = some x) :
    (x.IsValid = false →
      (resolveAuth cfg f ins env).2 = .fail .configX509 ∧
      ∀ a ∈ (resolveAuth cfg f ins env).1.acts, a.isNetworkCall = false) ∧
    (x.IsValid = true →
      ∀ cp kp c ca c₂, env.expandCertPath = .ok cp → env.expandKeyPath = .ok kp →
        env.loadKeyPairResult = .ok c → env.readCertFileResult = .ok ca →
        env.inlineKeyPairResult = .ok c₂ →
        (initializeClient ins env (initialState cfg f)).2 = .ok) := by
  constructor
  · intro hv
    simp [resolveAuth, initialState, initializeClient, x509Branch, hcfg, hen, hx, hv,
      Action.isNetworkCall]
  · intro hv cp kp c ca c₂ h₁ h₂ h₃ h₄ h₅
    cases hp : (x.certPath != "" && x.keyPath != "") with
    | true =>
      simp [initializeClient, initialState, x509Branch, hcfg, hen, hx, hv, hp,
        h₁, h₂, h₃, h₄]
    | false =>
      have hq : (x.cert != "" && x.key != "") = true := by
        unfold X509Config.IsValid at hv
        rw [hp] at hv
        cases h : (x.cert != "" && x.key != "")
        · rw [h] at hv; exact absurd hv (by decide)
        · rfl
      simp [initializeClient, initialState, x509Branch, hcfg, hen, hx, hv, hp, hq, h₅]

/-- C5 witness: a configuration populating both credential sources is rejected. -/
theorem x509_requires_exactly_one_source_witness :
    (({ certPath := "cp", keyPath := "kp", cert := "c", key := "k" } : X509Config).IsValid = false) ∧
    (resolveAuth { gateEndpoint := "g", auth := some { noAuth with
        x509 := some { certPath := "cp", keyPath := "kp", cert := "c", key := "k" } } }
      "" false testEnv).2 = .fail .configX509 := by
  refine ⟨by decide, ?_⟩
  exact ((x509_requires_exactly_one_source _ "" false testEnv _ _ rfl rfl rfl).1 (by decide)).1

set_option maxRecDepth 200000 in
/-- C1 counterexample: the claim is stated over every generated verifier of the
fresh OAuth2 branch, and the repository has two such branches. In the legacy
`ApiMeta.Authenticate` branch (src/unnamed/part_000), run on the concrete
5-byte random draw `"abcde"`, the authorization URL carries the raw verifier
itself as `code_challenge` — not `base64url(SHA256(verifier))` — with no
`code_challenge_method` parameter, and the verifier is not the base64url
encoding of 64 random bytes. -/
theorem legacy_oauth2_challenge_not_s256 :
    lookupParam "code_challenge"
        (legacyAuthenticateFresh [97, 98, 99, 100, 101] testOAuth).urlParams =
      some (legacyAuthenticateFresh [97, 98, 99, 100, 101] testOAuth).verifier ∧
    (legacyAuthenticateFresh [97, 98, 99, 100, 101] testOAuth).verifier ≠
      base64urlEncode (sha256 (strBytes
        (legacyAuthenticateFresh [97, 98, 99, 100, 101] testOAuth).verifier)) ∧
    lookupParam "code_challenge_method"
        (legacyAuthenticateFresh [97, 98, 99, 100, 101] testOAuth).urlParams = none ∧
    (legacyAuthenticateFresh [97, 98, 99, 100, 101] testOAuth).exchangeParams =
      [("code_verifier", (legacyAuthenticateFresh [97, 98, 99, 100, 101] testOAuth).verifier)] := by
  decide

/-- C1 (amended): in the GatewayClient's fresh (non-cached) OAuth2 branch the
code verifier is the base64url encoding of the 64-byte random buffer, the
authorization URL carries `code_challenge = base64url(SHA256(verifier))` and
`code_challenge_method = S256`, and the exchange is passed that same verifier;
the legacy ApiMeta branch instead uses a raw 5-byte verifier as its own
challenge (see the counterexample). -/
theorem gateway_oauth2_pkce_s256
    (env : Env) (st : St) (auth : AuthConfig) (o : OAuth2Conf)
    (hauth : st.auth = some auth) (hen : auth.enabled = true)
    (ho : auth.oauth2 = some o) (hv : o.IsValid = true) (hct : o.cachedToken = none)
    (hrand : env.randErr = false) :
    let verifier := base64urlEncode (randBuf env)
    let challenge := base64urlEncode (sha256 (strBytes verifier))
    let ps := authCodeURLParams o "state-token"
      [("access_type", "offline"), ("approval_prompt", "force"),
       ("code_challenge_method", "S256"), ("code_challenge", challenge)]
    (randBuf env).length = 64 ∧
    Action.outputAuthURL o.authUrl ps ∈ (authenticateOAuth2 env st).1.acts ∧
    lookupParam "code_challenge" ps = some challenge ∧
    lookupParam "code_challenge_method" ps = some "S256" ∧
    Action.oauthExchange env.promptedCode [("code_verifier", verifier)] ∈
      (authenticateOAuth2 env st).1.acts := by
  refine ⟨by simp [randBuf], ?_, ?_, ?_, ?_⟩
  · cases hx : env.exchangeResult with
    | err e =>
      simp [authenticateOAuth2, generateCodeVerifier, hauth, hen, ho, hct, hv, hrand, hx]
    | ok tk =>
      cases hs : env.statDest <;> cases hwe : env.writeFileErr <;> cases hl : env.loginReqErr <;>
        simp [authenticateOAuth2, oauth2Finish, writeYAMLConfigStep, writeYAML, loginStep,
          generateCodeVerifier, hauth, hen, ho, hct, hv, hrand, hx, hs, hwe, hl]
  · cases hsc : o.scopes.isEmpty <;> simp [authCodeURLParams, lookupParam, hsc]
  · cases hsc : o.scopes.isEmpty <;> simp [authCodeURLParams, lookupParam, hsc]
  · cases hx : env.exchangeResult with
    | err e =>
      simp [authenticateOAuth2, generateCodeVerifier, hauth, hen, ho, hct, hv, hrand, hx]
    | ok tk =>
      cases hs : env.statDest <;> cases hwe : env.writeFileErr <;> cases hl : env.loginReqErr <;>
        simp [authenticateOAuth2, oauth2Finish, writeYAMLConfigStep, writeYAML, loginStep,
          generateCodeVerifier, hauth, hen, ho, hct, hv, hrand, hx, hs, hwe, hl]

/-- C1 (amended) witness. -/
theorem gateway_oauth2_pkce_s256_witness :
    testOAuth.IsValid = true ∧
    ((randBuf testEnv).length = 64 ∧
      Action.outputAuthURL testOAuth.authUrl (authCodeURLParams testOAuth "state-token"
          [("access_type", "offline"), ("approval_prompt", "force"),
           ("code_challenge_method", "S256"),
           ("code_challenge", base64urlEncode (sha256 (strBytes (base64urlEncode (randBuf testEnv)))))]) ∈
        (authenticateOAuth2 testEnv
          { testSt with auth := some { noAuth with oauth2 := some testOAuth } }).1.acts ∧
      lookupParam "code_challenge" (authCodeURLParams testOAuth "state-token"
          [("access_type", "offline"), ("approval_prompt", "force"),
           ("code_challenge_method", "S256"),
           ("code_challenge", base64urlEncode (sha256 (strBytes (base64urlEncode (randBuf testEnv)))))]) =
        some (base64urlEncode (sha256 (strBytes (base64urlEncode (randBuf testEnv))))) ∧
      lookupParam "code_challenge_method" (authCodeURLParams testOAuth "state-token"
          [("access_type", "offline"), ("approval_prompt", "force"),
           ("code_challenge_method", "S256"),
           ("code_challenge", base64urlEncode (sha256 (strBytes (base64urlEncode (randBuf testEnv)))))]) =
        some "S256" ∧
      Action.oauthExchange testEnv.promptedCode
          [("code_verifier", base64urlEncode (randBuf testEnv))] ∈
        (authenticateOAuth2 testEnv
          { testSt with auth := some { noAuth with oauth2 := some testOAuth } }).1.acts) := by
  exact ⟨by decide,
    gateway_oauth2_pkce_s256 testEnv _ _ _ rfl rfl rfl (by decide) rfl rfl⟩

/-- C6: the LDAP handler prompts exactly for whichever of username and password
is absent from the configuration (the password without terminal echo), and when
both end up non-empty it submits exactly one URL-encoded form POST to
`<endpoint>/login` whose form fields are exactly `username` and `password` with
those values. -/
theorem ldap_prompts_only_missing_and_posts_form
    (env : Env) (st : St) (auth : AuthConfig) (l : LdapConf)
    (hauth : st.auth = some auth) (hen : auth.enabled = true) (hl : auth.ldap = some l)
    (hacts : st.acts = []) (hreq : env.ldapReqErr = none) :
    let u := if l.username = "" then env.ldapPromptUser else l.username
    let p := if l.password = "" then env.ldapPromptPass else l.password
    ((Action.promptInput "Username:" ∈ (authenticateLdap env st).1.acts) ↔ l.username = "") ∧
    ((Action.securePromptInput "Password:" ∈ (authenticateLdap env st).1.acts) ↔ l.password = "") ∧
    (u ≠ "" → p ≠ "" →
      (Action.httpPost (st.endpoint ++ "/login") "application/x-www-form-urlencoded"
          [("username", u), ("password", p)] ∈ (authenticateLdap env st).1.acts) ∧
      (∀ url ct form, Action.httpPost url ct form ∈ (authenticateLdap env st).1.acts →
        url = st.endpoint ++ "/login" ∧ ct = "application/x-www-form-urlencoded" ∧
        form = [("username", u), ("password", p)])) := by
  by_cases hu : l.username = "" <;> by_cases hp : l.password = "" <;>
    cases hd : env.ldapDoErr <;>
      by_cases hu' : (if l.username = "" then env.ldapPromptUser else l.username) = "" <;>
        by_cases hp' : (if l.password = "" then env.ldapPromptPass else l.password) = "" <;>
          simp_all [authenticateLdap, LdapConf.IsValid, hauth, hen, hl, hacts, hreq]

/-- C6 witness: username present in config, password absent. -/
theorem ldap_prompts_only_missing_and_posts_form_witness :
    (Action.promptInput "Username:" ∉ (authenticateLdap testEnv
      { testSt with auth := some { noAuth with
          ldap := some { username := "u", password := "" } } }).1.acts) ∧
    (Action.securePromptInput "Password:" ∈ (authenticateLdap testEnv
      { testSt with auth := some { noAuth with
          ldap := some { username := "u", password := "" } } }).1.acts) ∧
    (Action.httpPost ("e" ++ "/login") "application/x-www-form-urlencoded"
        [("username", "u"), ("password", "pp")] ∈ (authenticateLdap testEnv
      { testSt with auth := some { noAuth with
          ldap := some { username := "u", password := "" } } }).1.acts) := by
  have h := ldap_prompts_only_missing_and_posts_form testEnv
    { testSt with auth := some { noAuth with
        ldap := some { username := "u", password := "" } } }
    { noAuth with ldap := some { username := "u", password := "" } }
    { username := "u", password := "" } rfl rfl rfl rfl rfl
  refine ⟨?_, ?_, ?_⟩
  · intro hmem
    exact absurd (h.1.mp hmem) (by decide)
  · exact h.2.1.mpr rfl
  · exact (h.2.2 (by decide) (by decide)).1

/-- C7: when the Google-service-account cached token exists and is valid, the
handler session-logs-in with that token and performs no token fetch and no
config write; when a fetch is needed and succeeds, the handler fetches, logs
in, writes the refreshed token to the config file, and caches it in memory. -/
theorem gsa_cached_valid_skips_fetch_and_write
    (env : Env) (st : St) (auth : AuthConfig) (g : GSAConf)
    (hauth : st.auth = some auth) (hg : auth.googleServiceAccount = some g)
    (hacts : st.acts = []) :
    (∀ t, g.cachedToken = some t → tokenValid t = true → env.loginReqErr = none →
      authenticateGoogleServiceAccount env st =
        ({ st with acts := [.handlerRun .googleServiceAccount,
            .httpGet (st.endpoint ++ "/login") t.accessToken] }, .ok)) ∧
    (gsaFetchNeeded g = true →
      ∀ tok m, gsaSourceOk env g → env.gsaTokenResult = .ok tok →
        env.loginReqErr = none → env.statDest = .ok m →
        Action.gsaTokenFetch ∈ (authenticateGoogleServiceAccount env st).1.acts ∧
        Action.writeFile m ∈ (authenticateGoogleServiceAccount env st).1.acts ∧
        (authenticateGoogleServiceAccount env st).2 = .ok ∧
        (authenticateGoogleServiceAccount env st).1.auth =
          some { auth with googleServiceAccount := some { g with cachedToken := some tok } }) := by
  constructor
  · intro t hct hvalid hreq
    simp [authenticateGoogleServiceAccount, gsaIsEnabled, loginStep,
      hauth, hg, hct, hvalid, hreq, hacts]
  · intro hfetch tok m hsrc htok hreq hstat
    have hbranch : ∀ s : St, s.auth = some auth → s.acts = [Action.handlerRun .googleServiceAccount] →
        True := fun _ _ _ => trivial
    by_cases hf : g.file = ""
    · have hdef := hsrc.1 hf
      cases hct : g.cachedToken with
      | none =>
        cases hwe : env.writeFileErr <;>
          simp [authenticateGoogleServiceAccount, gsaIsEnabled, gsaFetch, loginStep,
            writeYAMLConfigStep, writeYAML, hauth, hg, hct, hacts, hf, hdef, htok, hreq,
            hstat, hwe]
      | some t =>
        have hnv : tokenValid t = false := by
          simpa [gsaFetchNeeded, hct] using hfetch
        cases hwe : env.writeFileErr <;>
          simp [authenticateGoogleServiceAccount, gsaIsEnabled, gsaFetch, loginStep,
            writeYAMLConfigStep, writeYAML, hauth, hg, hct, hacts, hf, hdef, htok, hreq,
            hstat, hwe, hnv]
    · have hrd := (hsrc.2 hf).1
      have hjwt := (hsrc.2 hf).2
      cases hct : g.cachedToken with
      | none =>
        cases hwe : env.writeFileErr <;>
          simp [authenticateGoogleServiceAccount, gsaIsEnabled, gsaFetch, loginStep,
            writeYAMLConfigStep, writeYAML, hauth, hg, hct, hacts, hf, hrd, hjwt, htok,
            hreq, hstat, hwe]
      | some t =>
        have hnv : tokenValid t = false := by
          simpa [gsaFetchNeeded, hct] using hfetch
        cases hwe : env.writeFileErr <;>
          simp [authenticateGoogleServiceAccount, gsaIsEnabled, gsaFetch, loginStep,
            writeYAMLConfigStep, writeYAML, hauth, hg, hct, hacts, hf, hrd, hjwt, htok,
            hreq, hstat, hwe, hnv]

/-- C7 witness: a valid cached token is reused via session login only. -/
theorem gsa_cached_valid_skips_fetch_and_write_witness :
    tokenValid testTokenFresh = true ∧
    authenticateGoogleServiceAccount testEnv
      { testSt with auth := some { noAuth with
          googleServiceAccount := some { file := "", cachedToken := some testTokenFresh } } } =
      ({ { testSt with auth := some { noAuth with
            googleServiceAccount := some { file := "", cachedToken := some testTokenFresh } } } with
          acts := [.handlerRun .googleServiceAccount,
            .httpGet ("e" ++ "/login") testTokenFresh.accessToken] }, .ok) := by
  refine ⟨by decide, ?_⟩
  exact (gsa_cached_valid_skips_fetch_and_write testEnv _ _ _ rfl rfl rfl).1
    testTokenFresh rfl (by decide) rfl

/-- C8: after a token has been acquired in memory, a failure of the config-file
write is reported as a warning and discarded: the OAuth2 authentication call
returns success for every error value the write can produce, and the warning is
emitted exactly when the write fails. -/
theorem oauth2_persist_failure_never_fails_auth
    (env : Env) (st : St) (auth : AuthConfig) (o : OAuth2Conf) (t tok : OAuth2Token) (m : Nat)
    (hauth : st.auth = some auth) (hen : auth.enabled = true) (ho : auth.oauth2 = some o)
    (hv : o.IsValid = true) (hct : o.cachedToken = some t)
    (href : env.refreshResult = .ok tok) (hstat : env.statDest = .ok m)
    (hacts : st.acts = []) :
    ∀ we : Option Err,
      (authenticateOAuth2 { env with writeFileErr := we } st).2 = .ok ∧
      ((Action.warnMsg "Error caching oauth2 token" ∈
          (authenticateOAuth2 { env with writeFileErr := we } st).1.acts) ↔ we.isSome) := by
  intro we
  cases we <;> cases hl : env.loginReqErr <;>
    simp [authenticateOAuth2, oauth2Finish, writeYAMLConfigStep, writeYAML, loginStep,
      hauth, hen, ho, hv, hct, href, hstat, hacts, hl]

/-- C8 witness. -/
theorem oauth2_persist_failure_never_fails_auth_witness :
    (authenticateOAuth2 { testEnv with writeFileErr := some (.ioErr "disk full") }
      { testSt with auth := some { noAuth with
          oauth2 := some { testOAuth with cachedToken := some testTokenExpired } } }).2 = .ok ∧
    (Action.warnMsg "Error caching oauth2 token" ∈
      (authenticateOAuth2 { testEnv with writeFileErr := some (.ioErr "disk full") }
        { testSt with auth := some { noAuth with
            oauth2 := some { testOAuth with cachedToken := some testTokenExpired } } }).1.acts) := by
  have h := oauth2_persist_failure_never_fails_auth testEnv
    { testSt with auth := some { noAuth with
        oauth2 := some { testOAuth with cachedToken := some testTokenExpired } } }
    _ _ testTokenExpired testTokenFresh 384
    rfl rfl rfl (by decide) rfl rfl rfl rfl (some (.ioErr "disk full"))
  exact ⟨h.1, h.2.mpr rfl⟩


/-! ### Step lemmas for the resolver pipeline -/

theorem handlersOf_cons (a : Action) (l : List Action) :
    handlersOf (a :: l) =
      (match a with | .handlerRun h => [h] | _ => []) ++ handlersOf l := by
  cases a <;> simp [handlersOf]

theorem writeYAMLConfigStep_shape (env : Env) (st : St) :
    ∃ extra, (writeYAMLConfigStep env st).1 = { st with acts := st.acts ++ extra } ∧
      handlersOf extra = [] := by
  unfold writeYAMLConfigStep writeYAML
  cases hs : env.statDest <;> cases hw : env.writeFileErr
  · exact ⟨_, rfl, rfl⟩
  · exact ⟨_, rfl, rfl⟩
  · exact ⟨[], by simp, rfl⟩
  · exact ⟨[], by simp, rfl⟩
  · exact ⟨[], by simp, rfl⟩
  · exact ⟨[], by simp, rfl⟩

theorem loginStep_shape (env : Env) (st : St) (tok : String) :
    ∃ extra, (loginStep env st tok).1 = { st with acts := st.acts ++ extra } ∧
      handlersOf extra = [] := by
  unfold loginStep
  cases hl : env.loginReqErr
  · exact ⟨_, rfl, rfl⟩
  · exact ⟨[], by simp, rfl⟩

theorem oauth2Finish_shape (env : Env) (o : OAuth2Conf) (tok : OAuth2Token) (st : St) :
    ∃ extra, handlersOf extra = [] ∧
      (oauth2Finish env o tok st).1.acts = st.acts ++ extra ∧
      (oauth2Finish env o tok st).1.auth =
        st.auth.map (fun a => { a with oauth2 := some { o with cachedToken := some tok } }) ∧
      frameOK st (oauth2Finish env o tok st).1 ∧
      ((oauth2Finish env o tok st).2 = .ok → (oauth2Finish env o tok st).1.ctx = .background) := by
  unfold oauth2Finish
  obtain ⟨e1, he1, hh1⟩ := writeYAMLConfigStep_shape env
    { st with auth := st.auth.map (fun a => { a with oauth2 := some { o with cachedToken := some tok } }),
              acts := st.acts ++ [.infoMsg "Caching oauth2 token."] }
  rcases h1 : writeYAMLConfigStep env
    { st with auth := st.auth.map (fun a => { a with oauth2 := some { o with cachedToken := some tok } }),
              acts := st.acts ++ [.infoMsg "Caching oauth2 token."] } with ⟨s1, o1⟩
  rw [h1] at he1
  cases o1 with
  | panicked =>
    refine ⟨[.infoMsg "Caching oauth2 token."] ++ e1, by simpa using hh1, ?_, ?_, ?_, ?_⟩ <;>
      simp_all [frameOK]
  | ok =>
    obtain ⟨e2, he2, hh2⟩ := loginStep_shape env s1 tok.accessToken
    rcases h2 : loginStep env s1 tok.accessToken with ⟨s2, o2⟩
    rw [h2] at he2
    refine ⟨[.infoMsg "Caching oauth2 token."] ++ e1 ++ e2, ?_, ?_, ?_, ?_, ?_⟩ <;>
      simp_all [frameOK, handlersOf_append, handlersOf_cons]
  | fail e =>
    obtain ⟨e2, he2, hh2⟩ := loginStep_shape env s1 tok.accessToken
    rcases h2 : loginStep env s1 tok.accessToken with ⟨s2, o2⟩
    rw [h2] at he2
    refine ⟨[.infoMsg "Caching oauth2 token."] ++ e1 ++ e2, ?_, ?_, ?_, ?_, ?_⟩ <;>
      simp_all [frameOK, handlersOf_append, handlersOf_cons]



theorem handlersOf_nil : handlersOf [] = [] := rfl

theorem frameOK_trans {a b c : St} (h1 : frameOK a b) (h2 : frameOK b c) : frameOK a c := by
  obtain ⟨x1, y1, z1⟩ := h1
  obtain ⟨x2, y2, z2⟩ := h2
  exact ⟨x2.trans x1, y2.trans y1, z2.trans z1⟩

theorem frameOK_refl (a : St) : frameOK a a := ⟨rfl, rfl, rfl⟩

theorem writeYAMLConfigStep_handlers (env : Env) (st : St) :
    handlersOf (writeYAMLConfigStep env st).1.acts = handlersOf st.acts := by
  obtain ⟨e, he, hh⟩ := writeYAMLConfigStep_shape env st
  rw [he]
  simp [handlersOf_append, hh]

theorem writeYAMLConfigStep_frame (env : Env) (st : St) :
    frameOK st (writeYAMLConfigStep env st).1 := by
  obtain ⟨e, he, _⟩ := writeYAMLConfigStep_shape env st
  rw [he]
  exact ⟨rfl, rfl, rfl⟩

theorem writeYAMLConfigStep_auth (env : Env) (st : St) :
    (writeYAMLConfigStep env st).1.auth = st.auth := by
  obtain ⟨e, he, _⟩ := writeYAMLConfigStep_shape env st
  rw [he]

theorem writeYAMLConfigStep_ctx (env : Env) (st : St) :
    (writeYAMLConfigStep env st).1.ctx = st.ctx := by
  obtain ⟨e, he, _⟩ := writeYAMLConfigStep_shape env st
  rw [he]

theorem loginStep_handlers (env : Env) (st : St) (tok : String) :
    handlersOf (loginStep env st tok).1.acts = handlersOf st.acts := by
  obtain ⟨e, he, hh⟩ := loginStep_shape env st tok
  rw [he]
  simp [handlersOf_append, hh]

theorem loginStep_frame (env : Env) (st : St) (tok : String) :
    frameOK st (loginStep env st tok).1 := by
  obtain ⟨e, he, _⟩ := loginStep_shape env st tok
  rw [he]
  exact ⟨rfl, rfl, rfl⟩

theorem loginStep_auth (env : Env) (st : St) (tok : String) :
    (loginStep env st tok).1.auth = st.auth := by
  obtain ⟨e, he, _⟩ := loginStep_shape env st tok
  rw [he]

theorem loginStep_ctx (env : Env) (st : St) (tok : String) :
    (loginStep env st tok).1.ctx = st.ctx := by
  obtain ⟨e, he, _⟩ := loginStep_shape env st tok
  rw [he]

theorem oauth2Finish_handlers (env : Env) (o : OAuth2Conf) (tok : OAuth2Token) (st : St) :
    handlersOf (oauth2Finish env o tok st).1.acts = handlersOf st.acts := by
  obtain ⟨e, hh, hacts, _, _, _⟩ := oauth2Finish_shape env o tok st
  rw [hacts]
  simp [handlersOf_append, hh]

theorem oauth2Finish_frame (env : Env) (o : OAuth2Conf) (tok : OAuth2Token) (st : St) :
    frameOK st (oauth2Finish env o tok st).1 := by
  obtain ⟨e, _, _, _, hf, _⟩ := oauth2Finish_shape env o tok st
  exact hf

theorem oauth2Finish_guards (env : Env) (o : OAuth2Conf) (tok : OAuth2Token) (st : St) :
    gsaGuard (oauth2Finish env o tok st).1.auth = gsaGuard st.auth ∧
    ldapGuard (oauth2Finish env o tok st).1.auth = ldapGuard st.auth ∧
    gsaFetchGuard (oauth2Finish env o tok st).1.auth = gsaFetchGuard st.auth := by
  obtain ⟨e, _, _, hauth, _, _⟩ := oauth2Finish_shape env o tok st
  rw [hauth]
  cases hA : st.auth <;> simp [gsaGuard, ldapGuard, gsaFetchGuard]

theorem oauth2Finish_ctx (env : Env) (o : OAuth2Conf) (tok : OAuth2Token) (st : St) :
    (oauth2Finish env o tok st).2 = .ok → (oauth2Finish env o tok st).1.ctx = .background := by
  obtain ⟨e, _, _, _, _, hc⟩ := oauth2Finish_shape env o tok st
  exact hc



theorem authenticateOAuth2_handlers (env : Env) (st : St) :
    handlersOf (authenticateOAuth2 env st).1.acts =
      handlersOf st.acts ++ (if oauthGuard st.auth then [Handler.oauth2] else []) := by
  unfold authenticateOAuth2 generateCodeVerifier
  dsimp only
  (repeat' split) <;>
    simp_all [oauth2Finish_handlers, handlersOf_append, handlersOf_cons, handlersOf_nil,
      oauthGuard]

theorem authenticateOAuth2_frame (env : Env) (st : St) :
    frameOK st (authenticateOAuth2 env st).1 := by
  unfold authenticateOAuth2 generateCodeVerifier
  dsimp only
  (repeat' split) <;>
    first
      | exact frameOK_refl _
      | exact ⟨rfl, rfl, rfl⟩
      | exact frameOK_trans ⟨rfl, rfl, rfl⟩ (oauth2Finish_frame _ _ _ _)

theorem authenticateOAuth2_guards (env : Env) (st : St) :
    gsaGuard (authenticateOAuth2 env st).1.auth = gsaGuard st.auth ∧
    ldapGuard (authenticateOAuth2 env st).1.auth = ldapGuard st.auth ∧
    gsaFetchGuard (authenticateOAuth2 env st).1.auth = gsaFetchGuard st.auth := by
  unfold authenticateOAuth2 generateCodeVerifier
  dsimp only
  (repeat' split) <;>
    first
      | exact ⟨rfl, rfl, rfl⟩
      | exact oauth2Finish_guards _ _ _ _

theorem authenticateOAuth2_ctx (env : Env) (st : St) :
    (authenticateOAuth2 env st).2 = .ok →
      (authenticateOAuth2 env st).1.ctx = (if oauthGuard st.auth then .background else st.ctx) := by
  intro hok
  rcases hA : st.auth with _ | auth
  · simp_all [authenticateOAuth2, oauthGuard]
  · rcases hO : auth.oauth2 with _ | o
    · simp_all [authenticateOAuth2, oauthGuard]
    · cases hen : auth.enabled
      · simp_all [authenticateOAuth2, oauthGuard]
      · cases hv : o.IsValid
        · simp_all [authenticateOAuth2]
        · have hg : oauthGuard (some auth) = true := by simp [oauthGuard, hO, hen]
          simp only [hg, if_true]
          cases hct : o.cachedToken with
          | some t =>
            cases hr : env.refreshResult with
            | err e => simp_all [authenticateOAuth2]
            | ok tk =>
              have hE : authenticateOAuth2 env st = oauth2Finish env o tk
                  { st with acts := (st.acts ++ [Action.handlerRun .oauth2]) ++ [Action.oauthTokenRefresh] } := by
                simp [authenticateOAuth2, hA, hO, hen, hv, hct, hr]
              rw [hE] at hok ⊢
              simpa using oauth2Finish_ctx _ _ _ _ hok
          | none =>
            cases hre : env.randErr with
            | true => simp_all [authenticateOAuth2, generateCodeVerifier]
            | false =>
              cases hx : env.exchangeResult with
              | err e => simp_all [authenticateOAuth2, generateCodeVerifier]
              | ok tk =>
                have hE : authenticateOAuth2 env st = oauth2Finish env o tk
                    { st with acts := ((st.acts ++ [Action.handlerRun .oauth2]) ++ [Action.startLocalListener 8085]) ++
                      [Action.outputAuthURL o.authUrl (authCodeURLParams o "state-token"
                          [("access_type", "offline"), ("approval_prompt", "force"),
                           ("code_challenge_method", "S256"),
                           ("code_challenge", base64urlEncode (sha256 (strBytes (base64urlEncode (randBuf env)))))]),
                       Action.promptInput "Paste authorization code:",
                       Action.oauthExchange env.promptedCode [("code_verifier", base64urlEncode (randBuf env))]] } := by
                  simp [authenticateOAuth2, generateCodeVerifier, hA, hO, hen, hv, hct, hre, hx]
                rw [hE] at hok ⊢
                simpa using oauth2Finish_ctx _ _ _ _ hok



theorem gsaFetch_shape (env : Env) (auth : AuthConfig) (g : GSAConf) (st : St) :
    ∃ extra g',
      handlersOf extra = [] ∧
      (gsaFetch env auth g st).1.acts = st.acts ++ extra ∧
      (gsaFetch env auth g st).1.auth = some { auth with googleServiceAccount := some g' } ∧
      frameOK st (gsaFetch env auth g st).1 ∧
      ((gsaFetch env auth g st).2 = .ok → (gsaFetch env auth g st).1.ctx = .background) := by
  unfold gsaFetch
  dsimp only
  by_cases hf : g.file = ""
  · simp only [hf, if_true]
    cases hds : env.gsaDefaultSourceErr with
    | some e =>
      refine ⟨[], { g with cachedToken := none }, ?_, ?_, ?_, ?_, ?_⟩ <;>
        simp_all [frameOK, handlersOf_nil]
    | none =>
      cases htk : env.gsaTokenResult with
      | err e =>
        refine ⟨[.gsaTokenFetch], { g with cachedToken := none }, ?_, ?_, ?_, ?_, ?_⟩ <;>
          simp_all [frameOK, handlersOf_nil, handlersOf_cons]
      | ok token =>
        obtain ⟨e2, he2, hh2⟩ := loginStep_shape env
          { st with
              auth := some { auth with googleServiceAccount := some { g with cachedToken := none } },
              acts := st.acts ++ [Action.gsaTokenFetch] } token.accessToken
        rcases h2 : loginStep env
          { st with
              auth := some { auth with googleServiceAccount := some { g with cachedToken := none } },
              acts := st.acts ++ [Action.gsaTokenFetch] } token.accessToken with ⟨s2, o2⟩
        rw [h2] at he2
        cases o2 with
        | fail e =>
          refine ⟨[Action.gsaTokenFetch] ++ e2, { g with cachedToken := none }, ?_, ?_, ?_, ?_, ?_⟩ <;>
            simp_all [frameOK, handlersOf_append, handlersOf_cons, handlersOf_nil]
        | ok =>
          obtain ⟨e3, he3, hh3⟩ := writeYAMLConfigStep_shape env
            { s2 with
                auth := some { auth with googleServiceAccount := some { g with cachedToken := some token } },
                ctx := .background }
          rcases h3 : writeYAMLConfigStep env
            { s2 with
                auth := some { auth with googleServiceAccount := some { g with cachedToken := some token } },
                ctx := .background } with ⟨s3, o3⟩
          rw [h3] at he3
          cases o3 <;>
            refine ⟨[Action.gsaTokenFetch] ++ e2 ++ e3, { g with cachedToken := some token },
              ?_, ?_, ?_, ?_, ?_⟩ <;>
              simp_all [frameOK, handlersOf_append, handlersOf_cons, handlersOf_nil]
        | panicked =>
          obtain ⟨e3, he3, hh3⟩ := writeYAMLConfigStep_shape env
            { s2 with
                auth := some { auth with googleServiceAccount := some { g with cachedToken := some token } },
                ctx := .background }
          rcases h3 : writeYAMLConfigStep env
            { s2 with
                auth := some { auth with googleServiceAccount := some { g with cachedToken := some token } },
                ctx := .background } with ⟨s3, o3⟩
          rw [h3] at he3
          cases o3 <;>
            refine ⟨[Action.gsaTokenFetch] ++ e2 ++ e3, { g with cachedToken := some token },
              ?_, ?_, ?_, ?_, ?_⟩ <;>
              simp_all [frameOK, handlersOf_append, handlersOf_cons, handlersOf_nil]
  · simp only [hf, if_false]
    cases hrd : env.gsaFileReadErr with
    | some e =>
      refine ⟨[.readFile g.file], { g with cachedToken := none }, ?_, ?_, ?_, ?_, ?_⟩ <;>
        simp_all [frameOK, handlersOf_nil, handlersOf_cons]
    | none =>
      cases hjw : env.gsaJwtSourceErr with
      | some e =>
        refine ⟨[.readFile g.file], { g with cachedToken := none }, ?_, ?_, ?_, ?_, ?_⟩ <;>
          simp_all [frameOK, handlersOf_nil, handlersOf_cons]
      | none =>
        cases htk : env.gsaTokenResult with
        | err e =>
          refine ⟨[.readFile g.file, .gsaTokenFetch], { g with cachedToken := none },
            ?_, ?_, ?_, ?_, ?_⟩ <;>
            simp_all [frameOK, handlersOf_nil, handlersOf_cons]
        | ok token =>
          obtain ⟨e2, he2, hh2⟩ := loginStep_shape env
            { st with
                auth := some { auth with googleServiceAccount := some { g with cachedToken := none } },
                acts := (st.acts ++ [Action.readFile g.file]) ++ [Action.gsaTokenFetch] } token.accessToken
          rcases h2 : loginStep env
            { st with
                auth := some { auth with googleServiceAccount := some { g with cachedToken := none } },
                acts := (st.acts ++ [Action.readFile g.file]) ++ [Action.gsaTokenFetch] } token.accessToken with ⟨s2, o2⟩
          rw [h2] at he2
          cases o2 with
          | fail e =>
            refine ⟨[Action.readFile g.file, Action.gsaTokenFetch] ++ e2,
              { g with cachedToken := none }, ?_, ?_, ?_, ?_, ?_⟩ <;>
              simp_all [frameOK, handlersOf_append, handlersOf_cons, handlersOf_nil]
          | ok =>
            obtain ⟨e3, he3, hh3⟩ := writeYAMLConfigStep_shape env
              { s2 with
                  auth := some { auth with googleServiceAccount := some { g with cachedToken := some token } },
                  ctx := .background }
            rcases h3 : writeYAMLConfigStep env
              { s2 with
                  auth := some { auth with googleServiceAccount := some { g with cachedToken := some token } },
                  ctx := .background } with ⟨s3, o3⟩
            rw [h3] at he3
            cases o3 <;>
              refine ⟨[Action.readFile g.file, Action.gsaTokenFetch] ++ e2 ++ e3,
                { g with cachedToken := some token }, ?_, ?_, ?_, ?_, ?_⟩ <;>
                simp_all [frameOK, handlersOf_append, handlersOf_cons, handlersOf_nil]
          | panicked =>
            obtain ⟨e3, he3, hh3⟩ := writeYAMLConfigStep_shape env
              { s2 with
                  auth := some { auth with googleServiceAccount := some { g with cachedToken := some token } },
                  ctx := .background }
            rcases h3 : writeYAMLConfigStep env
              { s2 with
                  auth := some { auth with googleServiceAccount := some { g with cachedToken := some token } },
                  ctx := .background } with ⟨s3, o3⟩
            rw [h3] at he3
            cases o3 <;>
              refine ⟨[Action.readFile g.file, Action.gsaTokenFetch] ++ e2 ++ e3,
                { g with cachedToken := some token }, ?_, ?_, ?_, ?_, ?_⟩ <;>
                simp_all [frameOK, handlersOf_append, handlersOf_cons, handlersOf_nil]



theorem gsaFetch_handlers (env : Env) (auth : AuthConfig) (g : GSAConf) (st : St) :
    handlersOf (gsaFetch env auth g st).1.acts = handlersOf st.acts := by
  obtain ⟨e, g', hh, hacts, _, _, _⟩ := gsaFetch_shape env auth g st
  rw [hacts]
  simp [handlersOf_append, hh]

theorem gsaFetch_frame (env : Env) (auth : AuthConfig) (g : GSAConf) (st : St) :
    frameOK st (gsaFetch env auth g st).1 := by
  obtain ⟨e, g', _, _, _, hf, _⟩ := gsaFetch_shape env auth g st
  exact hf

theorem gsaFetch_ldapGuard (env : Env) (auth : AuthConfig) (g : GSAConf) (st : St) :
    ldapGuard (gsaFetch env auth g st).1.auth = ldapGuard (some auth) := by
  obtain ⟨e, g', _, _, hauth, _, _⟩ := gsaFetch_shape env auth g st
  rw [hauth]
  simp [ldapGuard]

theorem gsaFetch_ctx (env : Env) (auth : AuthConfig) (g : GSAConf) (st : St) :
    (gsaFetch env auth g st).2 = .ok → (gsaFetch env auth g st).1.ctx = .background := by
  obtain ⟨e, g', _, _, _, _, hc⟩ := gsaFetch_shape env auth g st
  exact hc

theorem authenticateGoogleServiceAccount_handlers (env : Env) (st : St) :
    handlersOf (authenticateGoogleServiceAccount env st).1.acts =
      handlersOf st.acts ++ (if gsaGuard st.auth then [Handler.googleServiceAccount] else []) := by
  rcases hA : st.auth with _ | auth
  · simp [authenticateGoogleServiceAccount, gsaGuard, hA]
  · rcases hG : auth.googleServiceAccount with _ | g
    · simp [authenticateGoogleServiceAccount, gsaGuard, gsaIsEnabled, hA, hG]
    · have hg : gsaGuard (some auth) = true := by simp [gsaGuard, hG]
      simp only [hg, if_true]
      cases hct : g.cachedToken with
      | some t =>
        cases htv : tokenValid t <;>
          simp [authenticateGoogleServiceAccount, gsaIsEnabled, hA, hG, hct, htv,
            gsaFetch_handlers, loginStep_handlers, handlersOf_append, handlersOf_cons,
            handlersOf_nil]
      | none =>
        simp [authenticateGoogleServiceAccount, gsaIsEnabled, hA, hG, hct,
          gsaFetch_handlers, handlersOf_append, handlersOf_cons, handlersOf_nil]

theorem authenticateGoogleServiceAccount_frame2 (env : Env) (st : St) :
    frameOK st (authenticateGoogleServiceAccount env st).1 := by
  rcases hA : st.auth with _ | auth
  · simp [authenticateGoogleServiceAccount, hA]
    exact frameOK_refl _
  · rcases hG : auth.googleServiceAccount with _ | g
    · simp [authenticateGoogleServiceAccount, gsaIsEnabled, hA, hG]
      exact frameOK_refl _
    · cases hct : g.cachedToken with
      | some t =>
        cases htv : tokenValid t
        · simp [authenticateGoogleServiceAccount, gsaIsEnabled, hA, hG, hct, htv]
          exact frameOK_trans ⟨rfl, rfl, rfl⟩ (gsaFetch_frame _ _ _ _)
        · simp [authenticateGoogleServiceAccount, gsaIsEnabled, hA, hG, hct, htv]
          exact frameOK_trans ⟨rfl, rfl, rfl⟩ (loginStep_frame _ _ _)
      | none =>
        simp [authenticateGoogleServiceAccount, gsaIsEnabled, hA, hG, hct]
        exact frameOK_trans ⟨rfl, rfl, rfl⟩ (gsaFetch_frame _ _ _ _)

theorem authenticateGoogleServiceAccount_ldapGuard (env : Env) (st : St) :
    ldapGuard (authenticateGoogleServiceAccount env st).1.auth = ldapGuard st.auth := by
  rcases hA : st.auth with _ | auth
  · simp [authenticateGoogleServiceAccount, hA]
  · rcases hG : auth.googleServiceAccount with _ | g
    · simp [authenticateGoogleServiceAccount, gsaIsEnabled, hA, hG]
    · cases hct : g.cachedToken with
      | some t =>
        cases htv : tokenValid t
        · have hE : authenticateGoogleServiceAccount env st = gsaFetch env auth g
              { st with acts := st.acts ++ [Action.handlerRun .googleServiceAccount] } := by
            simp [authenticateGoogleServiceAccount, gsaIsEnabled, hA, hG, hct, htv]
          rw [hE, gsaFetch_ldapGuard]
        · have hE : authenticateGoogleServiceAccount env st = loginStep env
              { st with acts := st.acts ++ [Action.handlerRun .googleServiceAccount] } t.accessToken := by
            simp [authenticateGoogleServiceAccount, gsaIsEnabled, hA, hG, hct, htv]
          rw [hE, loginStep_auth]
          simp [ldapGuard, hA]
      | none =>
        have hE : authenticateGoogleServiceAccount env st = gsaFetch env auth g
            { st with acts := st.acts ++ [Action.handlerRun .googleServiceAccount] } := by
          simp [authenticateGoogleServiceAccount, gsaIsEnabled, hA, hG, hct]
        rw [hE, gsaFetch_ldapGuard]

theorem authenticateGoogleServiceAccount_ctx (env : Env) (st : St) :
    (authenticateGoogleServiceAccount env st).2 = .ok →
      (authenticateGoogleServiceAccount env st).1.ctx =
        (if gsaFetchGuard st.auth then .background else st.ctx) := by
  intro hok
  rcases hA : st.auth with _ | auth
  · simp_all [authenticateGoogleServiceAccount, gsaFetchGuard, hA]
  · rcases hG : auth.googleServiceAccount with _ | g
    · simp_all [authenticateGoogleServiceAccount, gsaIsEnabled, gsaFetchGuard, hA, hG]
    · have hfg : gsaFetchGuard (some auth) = gsaFetchNeeded g := by
        simp [gsaFetchGuard, hG]
      rw [hfg]
      cases hct : g.cachedToken with
      | some t =>
        cases htv : tokenValid t
        · have hn : gsaFetchNeeded g = true := by simp [gsaFetchNeeded, hct, htv]
          rw [hn]
          have hE : authenticateGoogleServiceAccount env st =
              gsaFetch env auth g { st with acts := st.acts ++ [Action.handlerRun .googleServiceAccount] } := by
            simp [authenticateGoogleServiceAccount, gsaIsEnabled, hA, hG, hct, htv]
          rw [hE] at hok ⊢
          simpa using gsaFetch_ctx _ _ _ _ hok
        · have hn : gsaFetchNeeded g = false := by simp [gsaFetchNeeded, hct, htv]
          rw [hn]
          have hE : authenticateGoogleServiceAccount env st =
              loginStep env { st with acts := st.acts ++ [Action.handlerRun .googleServiceAccount] } t.accessToken := by
            simp [authenticateGoogleServiceAccount, gsaIsEnabled, hA, hG, hct, htv]
          rw [hE]
          simp [loginStep_ctx]
      | none =>
        have hn : gsaFetchNeeded g = true := by simp [gsaFetchNeeded, hct]
        rw [hn]
        have hE : authenticateGoogleServiceAccount env st =
            gsaFetch env auth g { st with acts := st.acts ++ [Action.handlerRun .googleServiceAccount] } := by
          simp [authenticateGoogleServiceAccount, gsaIsEnabled, hA, hG, hct]
        rw [hE] at hok ⊢
        simpa using gsaFetch_ctx _ _ _ _ hok



theorem authenticateLdap_handlers (env : Env) (st : St) :
    handlersOf (authenticateLdap env st).1.acts =
      handlersOf st.acts ++ (if ldapGuard st.auth then [Handler.ldap] else []) := by
  unfold authenticateLdap
  dsimp only
  (repeat' split) <;>
    simp_all [ldapGuard, handlersOf_append, handlersOf_cons, handlersOf_nil]

theorem authenticateLdap_frame2 (env : Env) (st : St) :
    frameOK st (authenticateLdap env st).1 := by
  unfold authenticateLdap
  dsimp only
  (repeat' split) <;> exact ⟨rfl, rfl, rfl⟩

theorem authenticateLdap_ctx (env : Env) (st : St) :
    (authenticateLdap env st).2 = .ok →
      (authenticateLdap env st).1.ctx = (if ldapGuard st.auth then .background else st.ctx) := by
  unfold authenticateLdap
  dsimp only
  (repeat' split) <;> intro hok <;> simp_all [ldapGuard]

theorem initializeClient_handlers (ins : Bool) (env : Env) (st : St) :
    handlersOf (initializeClient ins env st).1.acts =
      handlersOf st.acts ++ switchPick st.auth := by
  unfold initializeClient switchPick x509Branch iapBranch basicBranch initializeX509Config
  dsimp only
  (repeat' split) <;>
    simp_all [handlersOf_append, handlersOf_cons, handlersOf_nil]

theorem initializeClient_global (ins : Bool) (env : Env) (st : St) :
    (initializeClient ins env st).1.globalInsecure = (st.globalInsecure || ins) := by
  unfold initializeClient x509Branch iapBranch basicBranch initializeX509Config
  dsimp only
  (repeat' split) <;> rfl

theorem initializeClient_auth (ins : Bool) (env : Env) (st : St) :
    (initializeClient ins env st).1.auth = st.auth := by
  unfold initializeClient x509Branch iapBranch basicBranch initializeX509Config
  dsimp only
  (repeat' split) <;> rfl

theorem initializeClient_endpoint (ins : Bool) (env : Env) (st : St) :
    (initializeClient ins env st).1.endpoint = st.endpoint := by
  unfold initializeClient x509Branch iapBranch basicBranch initializeX509Config
  dsimp only
  (repeat' split) <;> rfl

theorem initializeClient_transport (ins : Bool) (env : Env) (st : St) :
    (st.auth = none → (initializeClient ins env st).1.transport = st.transport) ∧
    (∀ a, st.auth = some a → a.x509.isSome = false →
      (initializeClient ins env st).1.transport = st.transport) := by
  constructor
  · intro hA
    simp [initializeClient, hA]
  · intro a hA hx
    rcases hxo : a.x509 with _ | x
    · unfold initializeClient iapBranch basicBranch
      rw [hA]
      dsimp only
      (repeat' split) <;> simp_all
    · rw [hxo] at hx
      exact absurd hx (by simp)

theorem initializeClient_ctx (ins : Bool) (env : Env) (st : St)
    (hctx : st.ctx = .uninit) (hok : (initializeClient ins env st).2 = .ok) :
    (initializeClient ins env st).1.ctx = switchCtx st.auth env := by
  unfold initializeClient switchCtx x509Branch iapBranch basicBranch initializeX509Config at *
  dsimp only at *
  (repeat' split at hok) <;> (repeat' split) <;> simp_all

/-- C3 (amended): the resolver runs at most one of X509, IAP, Basic — the first
whose section is enabled, chosen by a mutually-exclusive switch — followed, when
resolution succeeds, by each enabled handler among OAuth2,
GoogleServiceAccount, LDAP in that order; the handlers that write the shared
auth context all reset it to the background context, so the last
context-writing handler to run determines the final context. -/
theorem resolver_switch_order_and_last_wins
    (cfg : Config) (f : String) (ins : Bool) (env : Env) (st : St)
    (h : resolveAuth cfg f ins env = (st, .ok)) :
    handlersOf st.acts = switchPick cfg.auth ++ tailEnabled cfg.auth ∧
    st.ctx = finalCtxModel cfg.auth env := by
  unfold resolveAuth at h
  rcases h1 : initializeClient ins env (initialState cfg f) with ⟨s1, o1⟩
  rw [h1] at h
  cases o1 with
  | fail e => simp at h
  | panicked => simp at h
  | ok =>
    dsimp only at h
    rcases h2 : authenticateOAuth2 env s1 with ⟨s2, o2⟩
    rw [h2] at h
    cases o2 with
    | fail e => simp at h
    | panicked => simp at h
    | ok =>
      dsimp only at h
      rcases h3 : authenticateGoogleServiceAccount env s2 with ⟨s3, o3⟩
      rw [h3] at h
      cases o3 with
      | fail e => simp at h
      | panicked => simp at h
      | ok =>
        dsimp only at h
        rcases h4 : authenticateLdap env s3 with ⟨s4, o4⟩
        rw [h4] at h
        cases o4 with
        | fail e => simp at h
        | panicked => simp at h
        | ok =>
          have hst : s4 = st := by
            have := congrArg Prod.fst h
            simpa using this
          subst hst
          have a1 : s1.auth = cfg.auth := by
            have := initializeClient_auth ins env (initialState cfg f)
            rw [h1] at this
            simpa [initialState] using this
          have g1 : handlersOf s1.acts = switchPick cfg.auth := by
            have := initializeClient_handlers ins env (initialState cfg f)
            rw [h1] at this
            simpa [initialState, handlersOf_nil] using this
          have c1 : s1.ctx = switchCtx cfg.auth env := by
            have := initializeClient_ctx ins env (initialState cfg f) rfl (by rw [h1])
            rw [h1] at this
            simpa [initialState] using this
          have g2 : handlersOf s2.acts =
              handlersOf s1.acts ++ (if oauthGuard cfg.auth then [Handler.oauth2] else []) := by
            have := authenticateOAuth2_handlers env s1
            rw [h2, a1] at this
            simpa using this
          have gu2 := authenticateOAuth2_guards env s1
          rw [h2] at gu2
          have c2 : s2.ctx = (if oauthGuard cfg.auth then .background else s1.ctx) := by
            have := authenticateOAuth2_ctx env s1 (by rw [h2])
            rw [h2, a1] at this
            simpa using this
          have g3 : handlersOf s3.acts =
              handlersOf s2.acts ++ (if gsaGuard cfg.auth then [Handler.googleServiceAccount] else []) := by
            have := authenticateGoogleServiceAccount_handlers env s2
            rw [h3] at this
            rw [gu2.1, a1] at this
            simpa using this
          have gu3 : ldapGuard s3.auth = ldapGuard cfg.auth := by
            have := authenticateGoogleServiceAccount_ldapGuard env s2
            rw [h3] at this
            simp only [this]
            rw [gu2.2.1, a1]
          have c3 : s3.ctx = (if gsaFetchGuard cfg.auth then .background else s2.ctx) := by
            have := authenticateGoogleServiceAccount_ctx env s2 (by rw [h3])
            rw [h3] at this
            rw [gu2.2.2, a1] at this
            simpa using this
          have g4 : handlersOf s4.acts =
              handlersOf s3.acts ++ (if ldapGuard cfg.auth then [Handler.ldap] else []) := by
            have := authenticateLdap_handlers env s3
            rw [h4] at this
            rw [gu3] at this
            simpa using this
          have c4 : s4.ctx = (if ldapGuard cfg.auth then .background else s3.ctx) := by
            have := authenticateLdap_ctx env s3 (by rw [h4])
            rw [h4] at this
            rw [gu3] at this
            simpa using this
          constructor
          · rw [g4, g3, g2, g1]
            unfold tailEnabled
            simp [List.append_assoc]
          · rw [c4, c3, c2, c1]
            unfold finalCtxModel tailWritesCtx
            cases ho : oauthGuard cfg.auth <;> cases hgf : gsaFetchGuard cfg.auth <;>
              cases hl : ldapGuard cfg.auth <;> simp

/-- C10: with the insecure flag set, client initialization mutates the
process-global default transport to skip TLS verification; the client returned
in the no-auth, Basic and IAP cases carries no transport of its own, so
(via `effectiveInsecure`) the insecure behaviour comes from the process-global
default transport shared by every transport-less client. -/
theorem insecure_flag_mutates_default_transport (cfg : Config) (f : String) (env : Env) :
    (resolveAuth cfg f true env).1.globalInsecure = true ∧
    effectiveInsecure none (resolveAuth cfg f true env).1.globalInsecure = true ∧
    (cfg.auth = none → (resolveAuth cfg f true env).1.transport = none) ∧
    (∀ a, cfg.auth = some a → a.x509.isSome = false →
      (resolveAuth cfg f true env).1.transport = none) := by
  have key : (resolveAuth cfg f true env).1.globalInsecure = true ∧
      ((cfg.auth = none ∨ ∃ a, cfg.auth = some a ∧ a.x509.isSome = false) →
        (resolveAuth cfg f true env).1.transport = none) := by
    unfold resolveAuth
    rcases h1 : initializeClient true env (initialState cfg f) with ⟨s1, o1⟩
    have hg1 : s1.globalInsecure = true := by
      have := initializeClient_global true env (initialState cfg f)
      rw [h1] at this
      simpa [initialState] using this
    have ht1 : (cfg.auth = none ∨ ∃ a, cfg.auth = some a ∧ a.x509.isSome = false) →
        s1.transport = none := by
      intro hc
      have hpair := initializeClient_transport true env (initialState cfg f)
      rcases hc with hc | ⟨a, ha, hx⟩
      · have := hpair.1 (by simpa [initialState] using hc)
        rw [h1] at this
        simpa [initialState] using this
      · have := hpair.2 a (by simpa [initialState] using ha) hx
        rw [h1] at this
        simpa [initialState] using this
    cases o1 with
    | fail e => exact ⟨hg1, ht1⟩
    | panicked => exact ⟨hg1, ht1⟩
    | ok =>
      dsimp only
      rcases h2 : authenticateOAuth2 env s1 with ⟨s2, o2⟩
      have f2 := authenticateOAuth2_frame env s1
      rw [h2] at f2
      have hg2 : s2.globalInsecure = true := f2.1.trans hg1
      have ht2 : (cfg.auth = none ∨ ∃ a, cfg.auth = some a ∧ a.x509.isSome = false) →
          s2.transport = none := fun hc => f2.2.1.trans (ht1 hc)
      cases o2 with
      | fail e => exact ⟨hg2, ht2⟩
      | panicked => exact ⟨hg2, ht2⟩
      | ok =>
        dsimp only
        rcases h3 : authenticateGoogleServiceAccount env s2 with ⟨s3, o3⟩
        have f3 := authenticateGoogleServiceAccount_frame2 env s2
        rw [h3] at f3
        have hg3 : s3.globalInsecure = true := f3.1.trans hg2
        have ht3 : (cfg.auth = none ∨ ∃ a, cfg.auth = some a ∧ a.x509.isSome = false) →
            s3.transport = none := fun hc => f3.2.1.trans (ht2 hc)
        cases o3 with
        | fail e => exact ⟨hg3, ht3⟩
        | panicked => exact ⟨hg3, ht3⟩
        | ok =>
          dsimp only
          rcases h4 : authenticateLdap env s3 with ⟨s4, o4⟩
          have f4 := authenticateLdap_frame2 env s3
          rw [h4] at f4
          exact ⟨f4.1.trans hg3, fun hc => f4.2.1.trans (ht3 hc)⟩
  refine ⟨key.1, ?_, ?_, ?_⟩
  · simp [effectiveInsecure, key.1]
  · intro h
    exact key.2 (Or.inl h)
  · intro a ha hx
    exact key.2 (Or.inr ⟨a, ha, hx⟩)

/-- C3 counterexample: with both X509 and Basic enabled (and valid), a
successful resolution runs only the X509 handler; the enabled Basic handler
never runs and never sets the shared auth context, so the resolver does not run
each enabled scheme handler and the handlers are not independent. -/
theorem resolver_basic_skipped_when_x509_enabled :
    (testAuthX509Basic.enabled && testAuthX509Basic.basic.isSome) = true ∧
    (resolveAuth { gateEndpoint := "g", auth := some testAuthX509Basic } "" false testEnv).2 = .ok ∧
    Handler.x509 ∈ handlersOf
      (resolveAuth { gateEndpoint := "g", auth := some testAuthX509Basic } "" false testEnv).1.acts ∧
    Handler.basic ∉ handlersOf
      (resolveAuth { gateEndpoint := "g", auth := some testAuthX509Basic } "" false testEnv).1.acts ∧
    (resolveAuth { gateEndpoint := "g", auth := some testAuthX509Basic } "" false testEnv).1.ctx =
      .uninit := by
  decide

/-- C3 (amended) witness: Basic and LDAP both enabled; both run, and LDAP (the
last context writer) determines the final context. -/
theorem resolver_switch_order_and_last_wins_witness :
    resolveAuth { gateEndpoint := "g", auth := some { noAuth with
        basic := some { username := "u", password := "p" },
        ldap := some { username := "lu", password := "lp" } } } "" false testEnv =
      ((resolveAuth { gateEndpoint := "g", auth := some { noAuth with
          basic := some { username := "u", password := "p" },
          ldap := some { username := "lu", password := "lp" } } } "" false testEnv).1, .ok) ∧
    handlersOf (resolveAuth { gateEndpoint := "g", auth := some { noAuth with
        basic := some { username := "u", password := "p" },
        ldap := some { username := "lu", password := "lp" } } } "" false testEnv).1.acts =
      switchPick ({ gateEndpoint := "g", auth := some { noAuth with
        basic := some { username := "u", password := "p" },
        ldap := some { username := "lu", password := "lp" } } } : Config).auth ++
      tailEnabled ({ gateEndpoint := "g", auth := some { noAuth with
        basic := some { username := "u", password := "p" },
        ldap := some { username := "lu", password := "lp" } } } : Config).auth ∧
    (resolveAuth { gateEndpoint := "g", auth := some { noAuth with
        basic := some { username := "u", password := "p" },
        ldap := some { username := "lu", password := "lp" } } } "" false testEnv).1.ctx =
      finalCtxModel ({ gateEndpoint := "g", auth := some { noAuth with
        basic := some { username := "u", password := "p" },
        ldap := some { username := "lu", password := "lp" } } } : Config).auth testEnv := by
  have h : resolveAuth { gateEndpoint := "g", auth := some { noAuth with
      basic := some { username := "u", password := "p" },
      ldap := some { username := "lu", password := "lp" } } } "" false testEnv =
      ((resolveAuth { gateEndpoint := "g", auth := some { noAuth with
          basic := some { username := "u", password := "p" },
          ldap := some { username := "lu", password := "lp" } } } "" false testEnv).1, .ok) := by
    decide
  have hc := resolver_switch_order_and_last_wins _ "" false testEnv _ h
  exact ⟨h, hc.1, hc.2⟩

/-- C10 witness. -/
theorem insecure_flag_mutates_default_transport_witness :
    (resolveAuth { gateEndpoint := "g", auth := none } "" true testEnv).1.globalInsecure = true ∧
    (resolveAuth { gateEndpoint := "g", auth := none } "" true testEnv).1.transport = none ∧
    effectiveInsecure
      (resolveAuth { gateEndpoint := "g", auth := none } "" true testEnv).1.transport
      (resolveAuth { gateEndpoint := "g", auth := none } "" true testEnv).1.globalInsecure = true := by
  have h := insecure_flag_mutates_default_transport
    { gateEndpoint := "g", auth := none } "" testEnv
  refine ⟨h.1, h.2.2.1 rfl, ?_⟩
  rw [h.2.2.1 rfl]
  exact h.2.1


set_option maxRecDepth 40000 in
/-- FIPS 180-4 test vector: SHA-256 of the empty message. -/
theorem sha256_empty_vector :
    sha256 [] = [0xe3, 0xb0, 0xc4, 0x42, 0x98, 0xfc, 0x1c, 0x14, 0x9a, 0xfb, 0xf4, 0xc8,
      0x99, 0x6f, 0xb9, 0x24, 0x27, 0xae, 0x41, 0xe4, 0x64, 0x9b, 0x93, 0x4c,
      0xa4, 0x95, 0x99, 0x1b, 0x78, 0x52, 0xb8, 0x55] := by
  decide

set_option maxRecDepth 40000 in
/-- FIPS 180-4 test vector: SHA-256 of "abc". -/
theorem sha256_abc_vector :
    sha256 [97, 98, 99] = [0xba, 0x78, 0x16, 0xbf, 0x8f, 0x01, 0xcf, 0xea, 0x41, 0x41,
      0x40, 0xde, 0x5d, 0xae, 0x22, 0x23, 0xb0, 0x03, 0x61, 0xa3, 0x96, 0x17, 0x7a, 0x9c,
      0xb4, 0x10, 0xff, 0x61, 0xf2, 0x00, 0x15, 0xad] := by
  decide

/-- RFC 4648 test vector for the unpadded URL-safe base64 encoding. -/
theorem base64url_vector : base64urlEncode [97, 98, 99] = "YWJj" := by
  decide

end Spin
